import Mathlib

/-! # PolarDesigner editor: band-state synchronisation, tracking workflow and layout

A shallow embedding of `Source/PluginEditor.cpp` (class
`PolarDesignerAudioProcessorEditor`).  Widgets are represented by the properties the
editor code reads and writes (enabled, visible, toggle state, ...), keyed by the index of
the widget in its array.  Handlers are state transformers on `Editor`.
-/

namespace PolarDesigner

/-! ## Basic machinery -/

/-- Pointwise update of an index-keyed widget property. -/
def upd {α : Type} (f : Nat → α) (i : Nat) (v : α) : Nat → α :=
  fun j => if j = i then v else f j

/-- The loop `for (int i = 0; i < n; i++) body`, as a state transformer. -/
def forLoop {σ : Type} : Nat → (Nat → σ → σ) → σ → σ
  | 0, _, s => s
  | k + 1, body, s => body k (forLoop k body s)

/-- `maxNumberBands`: the editor has five bands. -/
def maxNumberBands : Nat := 5

/-! ## The audio processor, as seen from the editor -/

/-- Calls the editor makes on the processor that change the processor. -/
inductive ProcessorCall where
  | startTracking (trackDisturber : Bool)
  | stopTracking (applyOptimalPattern : Int)
  | setEqState (idx : Nat)
  | setAbLayer (layer : Nat)
  deriving DecidableEq, Repr

/-- Parameters of the value tree state that the editor writes directly. -/
inductive ParamId where
  | nrBands
  | syncChannel
  deriving DecidableEq, Repr

/-- Modelled from the spec: `PluginProcessor` is not part of the sources.  The record holds
what the getters of the collaborator contract return (`getNBands`, `getSyncChannelIdx`,
`zeroDelayModeActive`, `getSignalRecorded`, `getDisturberRecorded`, `getEqState`), the four
test-and-clear flags the timer polls, and a log of the tracking and equalisation calls the
editor has issued, oldest first. -/
structure Processor where
  nBands : Int
  syncChannelIdx : Int
  zeroDelayMode : Bool
  signalRecorded : Bool
  disturberRecorded : Bool
  eqState : Nat
  repaintDEQ : Bool
  didNRActiveBandsChange : Bool
  zeroDelayModeChanged : Bool
  ffDfEqChanged : Bool
  calls : List ProcessorCall

/-- The call `processor.startTracking (trackDisturber)`. -/
def Processor.startTracking (trackDisturber : Bool) (p : Processor) : Processor :=
  { p with calls := p.calls ++ [ProcessorCall.startTracking trackDisturber] }

/-- The call `processor.stopTracking (applyOptimalPattern)`. -/
def Processor.stopTracking (applyOptimalPattern : Int) (p : Processor) : Processor :=
  { p with calls := p.calls ++ [ProcessorCall.stopTracking applyOptimalPattern] }

/-- The call `processor.setEqState (idx)`; `getEqState` returns the value set. -/
def Processor.setEqState (idx : Nat) (p : Processor) : Processor :=
  { p with eqState := idx, calls := p.calls ++ [ProcessorCall.setEqState idx] }

/-! ## Editor state -/

/-- The controls of one band: the properties of `slDir[i]`, `slBandGain[i]`, `msbSolo[i]`,
`msbMute[i]` and `polarPatternVisualizers[i]` that the editor sets through the JUCE setters
`setEnabled`, `setVisible` and `setToggleState`. -/
structure BandControls where
  slDirEnabled : Bool
  slDirVisible : Bool
  slBandGainEnabled : Bool
  slBandGainVisible : Bool
  msbSoloEnabled : Bool
  msbSoloVisible : Bool
  msbSoloToggleState : Bool
  msbMuteEnabled : Bool
  msbMuteVisible : Bool
  msbMuteToggleState : Bool
  /-- Modelled from the spec: the visualizer class is not part of the sources; this is the
  "visualizer-active" flag that `setActive` stores and `isPvisActive` returns. -/
  pvisActive : Bool
  pvisVisible : Bool
  deriving DecidableEq, Repr

/-- The members of `PolarDesignerAudioProcessorEditor` that the handlers below read or
write.  Array members are functions of the index. -/
structure Editor where
  processor : Processor
  nActiveBands : Int
  /-- The value `cbSetNrBands.getSelectedId ()` returns. -/
  cbSetNrBandsSelectedId : Int
  /-- The controls of band `i`. -/
  band : Nat → BandControls
  /-- Modelled from the spec: the visualizer class is not part of the sources; this is the
  solo highlight last given to `polarPatternVisualizers[i].setSoloActive`. -/
  pvisSoloActive : Nat → Bool
  /-- Modelled from the spec: the equaliser class is not part of the sources; this is the
  value last given to `directivityEqualiser.setActive`. -/
  deqActive : Bool
  /-- Modelled from the spec: the value last given to `directivityEqualiser.setSoloActive`. -/
  deqSoloActive : Bool
  -- side area
  tbSetNrBandsEnabled : Nat → Bool
  tbSetNrBandsToggleState : Nat → Bool
  tbSyncChannelEnabled : Nat → Bool
  tbSyncChannelToggleState : Nat → Bool
  tbLoadFileEnabled : Bool
  tbSaveFileEnabled : Bool
  tbEqEnabled : Nat → Bool
  tbEqToggleState : Nat → Bool
  tbAllowBackwardsPatternEnabled : Bool
  tbRecordDisturberEnabled : Bool
  tbRecordSignalEnabled : Bool
  slProximityEnabled : Bool
  -- zero latency button
  tbZeroDelayEnabled : Bool
  tbZeroDelayToggleState : Bool
  tbAbButtonToggleState : Nat → Bool
  -- overlays
  alOverlayErrorVisible : Bool
  alOverlayErrorTitle : String
  alOverlayErrorMessage : String
  alOverlayDisturberVisible : Bool
  /-- Modelled from the spec: the overlay class is not part of the sources; this is the
  value last given to `alOverlayDisturber.enableRatioButton`, the "maximize ratio" option. -/
  alOverlayDisturberRatioEnabled : Bool
  alOverlaySignalVisible : Bool
  /-- Modelled from the spec: the value last given to `alOverlaySignal.enableRatioButton`. -/
  alOverlaySignalRatioEnabled : Bool
  /-- Writes `setValueNotifyingHost` made on value-tree parameters, oldest first. -/
  paramWrites : List (ParamId × Int)

/-- Apply setter calls to the controls of band `i`. -/
def Editor.modBand (s : Editor) (i : Nat) (f : BandControls → BandControls) : Editor :=
  { s with band := upd s.band i (f (s.band i)) }

/-! ## Solo aggregate and toggle notifications -/

/-- `getSoloActive`: whether one of the five solo buttons is toggled on. -/
def getSoloActive (s : Editor) : Bool :=
  (List.range maxNumberBands).any fun i => (s.band i).msbSoloToggleState

/-- The last `else` branch of `buttonClicked` ("muteSoloButton!"): the solo aggregate is
pushed to the equaliser and to every visualizer. -/
def buttonClickedMuteSolo (s : Editor) : Editor :=
  { s with
    deqSoloActive := getSoloActive s
    pvisSoloActive := fun i => if i < maxNumberBands then getSoloActive s else s.pvisSoloActive i }

/-- The call `msbSolo[i].setToggleState (shouldBeOn, sendNotification)`: JUCE does nothing when
the state is unchanged, and otherwise stores it and calls the listener's `buttonClicked`,
which for a solo button runs the last branch. -/
def msbSoloSetToggleState (i : Nat) (shouldBeOn : Bool) (s : Editor) : Editor :=
  if (s.band i).msbSoloToggleState = shouldBeOn then s
  else buttonClickedMuteSolo (s.modBand i fun b => { b with msbSoloToggleState := shouldBeOn })

/-- The call `msbMute[i].setToggleState (shouldBeOn, sendNotification)`. -/
def msbMuteSetToggleState (i : Nat) (shouldBeOn : Bool) (s : Editor) : Editor :=
  if (s.band i).msbMuteToggleState = shouldBeOn then s
  else buttonClickedMuteSolo (s.modBand i fun b => { b with msbMuteToggleState := shouldBeOn })

/-- The function `buttonClicked (&tbSyncChannel[k])`: when the button is on, the parameter
`syncChannel` is written with `k + 1`; no later branch names the button, so the last
branch runs. -/
def buttonClickedSyncChannel (k : Nat) (s : Editor) : Editor :=
  let s := if s.tbSyncChannelToggleState k
    then { s with paramWrites := s.paramWrites ++ [(ParamId.syncChannel, (k : Int) + 1)] }
    else s
  buttonClickedMuteSolo s

/-- The call `tbSyncChannel[k].setToggleState (true, sendNotification)`.  The five buttons
form a radio group: JUCE first switches off (with notification) every other button of the
group that is on, then switches this one on and notifies. -/
def tbSyncChannelSetToggleOn (k : Nat) (s : Editor) : Editor :=
  if s.tbSyncChannelToggleState k then s
  else
    let s := forLoop 5 (fun j s =>
      if j ≠ k ∧ s.tbSyncChannelToggleState j = true then
        buttonClickedSyncChannel j
          { s with tbSyncChannelToggleState := upd s.tbSyncChannelToggleState j false }
      else s) s
    buttonClickedSyncChannel k
      { s with tbSyncChannelToggleState := upd s.tbSyncChannelToggleState k true }

/-! ## Band count changes -/

/-- The first `if` of the loop body of `nActiveBandsChanged`, for band `i`. -/
def nActiveBandsChangedBand (i : Nat) (s : Editor) : Editor :=
  if (i : Int) < s.nActiveBands then
    s.modBand i fun b => { b with
      slDirEnabled := true
      slBandGainEnabled := true
      msbSoloEnabled := true
      msbMuteEnabled := true
      pvisActive := true
      pvisVisible := true
      slDirVisible := true
      slBandGainVisible := true
      msbSoloVisible := true
      msbMuteVisible := true }
  else
    let s := s.modBand i fun b => { b with
      slDirEnabled := false
      slBandGainEnabled := false
      msbSoloEnabled := false }
    let s := msbSoloSetToggleState i false s
    let s := s.modBand i fun b => { b with msbMuteEnabled := false }
    let s := msbMuteSetToggleState i false s
    s.modBand i fun b => { b with
      pvisActive := false
      pvisVisible := false
      slDirVisible := false
      slBandGainVisible := false
      msbSoloVisible := false
      msbMuteVisible := false }

/-- The second `if` of the loop body of `nActiveBandsChanged` ("sync Channel"). -/
def nActiveBandsChangedSync (i : Nat) (s : Editor) : Editor :=
  if (i : Int) ≤ s.nActiveBands then
    { s with tbSyncChannelEnabled := upd s.tbSyncChannelEnabled i true }
  else
    { s with tbSyncChannelEnabled := upd s.tbSyncChannelEnabled i false }

/-- The body of the loop of `nActiveBandsChanged` for band `i`. -/
def nActiveBandsChangedBody (i : Nat) (s : Editor) : Editor :=
  nActiveBandsChangedSync i (nActiveBandsChangedBand i s)

/-- The function `nActiveBandsChanged`. -/
def nActiveBandsChanged (s : Editor) : Editor :=
  let s := { s with nActiveBands := s.processor.nBands }
  let s := forLoop 5 nActiveBandsChangedBody s
  tbSyncChannelSetToggleOn 0 s

/-! ## Side area, zero latency mode, main area -/

/-- The function `setSideAreaEnabled`: the five band-count buttons, the sync-channel buttons
`0..5`, load, save, the three equalisation buttons, the reverse-pattern button, both record
buttons and the proximity slider. -/
def setSideAreaEnabled (set : Bool) (s : Editor) : Editor :=
  { s with
    tbSetNrBandsEnabled := fun i => if i < 5 then set else s.tbSetNrBandsEnabled i
    tbSyncChannelEnabled := fun i => if i < 6 then set else s.tbSyncChannelEnabled i
    tbLoadFileEnabled := set
    tbSaveFileEnabled := set
    tbEqEnabled := fun i => if i < 3 then set else s.tbEqEnabled i
    tbAllowBackwardsPatternEnabled := set
    tbRecordDisturberEnabled := set
    tbRecordSignalEnabled := set
    slProximityEnabled := set }

/-- The body of the loop of `zeroDelayModeChange` for band `i`, with the local `nActive`. -/
def zeroDelayModeChangeBody (nActive : Int) (i : Nat) (s : Editor) : Editor :=
  if (i : Int) < nActive then
    s.modBand i fun b => { b with
      slDirEnabled := true
      slBandGainEnabled := true
      msbSoloEnabled := true
      msbMuteEnabled := true
      pvisActive := true }
  else
    let s := s.modBand i fun b => { b with
      slDirEnabled := false
      slBandGainEnabled := false
      msbSoloEnabled := false }
    let s := msbSoloSetToggleState i false s
    let s := s.modBand i fun b => { b with msbMuteEnabled := false }
    let s := msbMuteSetToggleState i false s
    s.modBand i fun b => { b with pvisActive := false }

/-- The function `zeroDelayModeChange`. -/
def zeroDelayModeChange (s : Editor) : Editor :=
  let s := { s with tbZeroDelayToggleState := s.processor.zeroDelayMode }
  let s := { s with nActiveBands := s.cbSetNrBandsSelectedId }
  let nActive : Int := if s.processor.zeroDelayMode then 1 else s.nActiveBands
  let s := setSideAreaEnabled (!s.processor.zeroDelayMode) s
  forLoop 5 (zeroDelayModeChangeBody nActive) s

/-- The function `disableMainArea`.  The loop runs over `i < nActiveBands`. -/
def disableMainArea (s : Editor) : Editor :=
  let s := { s with deqActive := false }
  let s := forLoop s.nActiveBands.toNat (fun i s =>
    s.modBand i fun b => { b with
      slDirEnabled := false
      slBandGainEnabled := false
      msbSoloEnabled := false
      msbMuteEnabled := false
      pvisActive := false }) s
  { s with tbZeroDelayEnabled := false }

/-! ## Overlays -/

/-- The function `disableOverlay`. -/
def disableOverlay (s : Editor) : Editor :=
  let s := { s with alOverlayErrorVisible := false }
  let s := { s with alOverlayDisturberVisible := false }
  let s := { s with alOverlaySignalVisible := false }
  let s := { s with deqActive := true }
  let s := nActiveBandsChanged s
  let s := setSideAreaEnabled true s
  { s with tbZeroDelayEnabled := true }

/-- The function `onAlOverlayErrorOkay`. -/
def onAlOverlayErrorOkay (s : Editor) : Editor :=
  disableOverlay s

/-- The function `onAlOverlayApplyPattern`. -/
def onAlOverlayApplyPattern (s : Editor) : Editor :=
  let s := disableOverlay s
  { s with processor := s.processor.stopTracking 1 }

/-- The function `onAlOverlayCancelRecord`. -/
def onAlOverlayCancelRecord (s : Editor) : Editor :=
  let s := disableOverlay s
  { s with processor := s.processor.stopTracking 0 }

/-- The function `onAlOverlayMaxSigToDist`. -/
def onAlOverlayMaxSigToDist (s : Editor) : Editor :=
  let s := disableOverlay s
  { s with processor := s.processor.stopTracking 2 }

/-- The destructor of the editor (the look-and-feel reset is not modelled). -/
def destructor (s : Editor) : Editor :=
  let s := if s.alOverlayDisturberVisible then onAlOverlayCancelRecord s else s
  let s := if s.alOverlaySignalVisible then onAlOverlayCancelRecord s else s
  s

/-! ## Equalisation mode -/

/-- The branches `button == &tbEq[k]` of `buttonClicked`. -/
def buttonClickedEq (k : Nat) (s : Editor) : Editor :=
  { s with processor := s.processor.setEqState k }

/-- The call `tbEq[k].setToggleState (true, sendNotification)`; the three buttons form a
radio group. -/
def tbEqSetToggleOn (k : Nat) (s : Editor) : Editor :=
  if s.tbEqToggleState k then s
  else
    let s := forLoop 3 (fun j s =>
      if j ≠ k ∧ s.tbEqToggleState j = true then
        buttonClickedEq j { s with tbEqToggleState := upd s.tbEqToggleState j false }
      else s) s
    buttonClickedEq k { s with tbEqToggleState := upd s.tbEqToggleState k true }

/-- The function `setEqMode`. -/
def setEqMode (s : Editor) : Editor :=
  let activeIdx := s.processor.eqState
  tbEqSetToggleOn activeIdx s

/-! ## Presets -/

/-- What the file dialog and the processor's `loadPreset` or `savePreset` produced. -/
inductive PresetOutcome where
  | dismissed
  | ok
  | failed (message : String)
  deriving DecidableEq, Repr

/-- The function `loadFile`, given the outcome of the dialog and of `loadPreset`. -/
def loadFile (o : PresetOutcome) (s : Editor) : Editor :=
  match o with
  | PresetOutcome.dismissed => s
  | PresetOutcome.failed message =>
    let s := { s with alOverlayErrorTitle := "preset load error!" }
    let s := { s with alOverlayErrorMessage := message }
    let s := { s with alOverlayErrorVisible := true }
    let s := disableMainArea s
    setSideAreaEnabled false s
  | PresetOutcome.ok => setEqMode s

/-- The function `saveFile`, given the outcome of the dialog and of `savePreset`. -/
def saveFile (o : PresetOutcome) (s : Editor) : Editor :=
  match o with
  | PresetOutcome.dismissed => s
  | PresetOutcome.failed message =>
    let s := { s with alOverlayErrorTitle := "preset save error!" }
    let s := { s with alOverlayErrorMessage := message }
    let s := { s with alOverlayErrorVisible := true }
    let s := disableMainArea s
    setSideAreaEnabled false s
  | PresetOutcome.ok => s

/-! ## Button clicks -/

/-- The buttons whose clicks the editor listens to. -/
inductive Button where
  | tbSetNrBands (i : Nat)
  | tbSyncChannel (i : Nat)
  | tbLoadFile
  | tbSaveFile
  | tbEq (i : Nat)
  | tbRecordDisturber
  | tbRecordSignal
  | tbAllowBackwardsPattern
  | tbZeroDelay
  | tbAbButton (i : Nat)
  | msbSolo (i : Nat)
  | msbMute (i : Nat)
  deriving DecidableEq, Repr

/-- The function `buttonClicked`.  The outcome `o` is what a file dialog opened by the click
produces.  The alpha values of the A/B buttons are not modelled. -/
def buttonClicked (button : Button) (o : PresetOutcome) (s : Editor) : Editor :=
  match button with
  | Button.tbSetNrBands i =>
    let s := if s.tbSetNrBandsToggleState i
      then { s with paramWrites := s.paramWrites ++ [(ParamId.nrBands, (i : Int))] }
      else s
    buttonClickedMuteSolo s
  | Button.tbSyncChannel i => buttonClickedSyncChannel i s
  | Button.tbLoadFile => loadFile o s
  | Button.tbSaveFile => saveFile o s
  | Button.tbEq i => buttonClickedEq i s
  | Button.tbRecordDisturber =>
    let s := { s with processor := s.processor.startTracking true }
    let s := { s with alOverlayDisturberRatioEnabled := s.processor.signalRecorded }
    let s := { s with alOverlayDisturberVisible := true }
    let s := disableMainArea s
    setSideAreaEnabled false s
  | Button.tbRecordSignal =>
    let s := { s with processor := s.processor.startTracking false }
    let s := { s with alOverlaySignalRatioEnabled := s.processor.disturberRecorded }
    let s := { s with alOverlaySignalVisible := true }
    let s := disableMainArea s
    setSideAreaEnabled false s
  | Button.tbAllowBackwardsPattern => s
  | Button.tbZeroDelay => { s with tbZeroDelayToggleState := !s.tbZeroDelayToggleState }
  | Button.tbAbButton i =>
    if s.tbAbButtonToggleState i then s
    else { s with processor :=
      { s.processor with calls := s.processor.calls ++ [ProcessorCall.setAbLayer i] } }
  | Button.msbSolo _ => buttonClickedMuteSolo s
  | Button.msbMute _ => buttonClickedMuteSolo s

/-! ## Timer -/

/-- The function `timerCallback`: each of the four flags is tested, cleared, and its handler
run. -/
def timerCallback (s : Editor) : Editor :=
  let s := if s.processor.repaintDEQ
    then { s with processor := { s.processor with repaintDEQ := false } }
    else s
  let s := if s.processor.didNRActiveBandsChange
    then nActiveBandsChanged
      { s with processor := { s.processor with didNRActiveBandsChange := false } }
    else s
  let s := if s.processor.zeroDelayModeChanged
    then zeroDelayModeChange
      { s with processor := { s.processor with zeroDelayModeChanged := false } }
    else s
  let s := if s.processor.ffDfEqChanged
    then setEqMode { s with processor := { s.processor with ffDfEqChanged := false } }
    else s
  s

/-! ## Construction -/

/-- The state the constructor has built when it first calls `nActiveBandsChanged`: every
widget added and visible, enabled as JUCE creates it, overlays hidden, solo and mute
buttons holding the attached parameter values `solo` and `mute`, the sync-channel and
band-count buttons selected from the processor, and the combo box `cbSetNrBands` left
without items, so that its selected id is `0`. -/
def constructed (p : Processor) (solo mute : Nat → Bool) : Editor where
  processor := p
  nActiveBands := p.nBands
  cbSetNrBandsSelectedId := 0
  band := fun i =>
    { slDirEnabled := true, slDirVisible := true, slBandGainEnabled := true,
      slBandGainVisible := true, msbSoloEnabled := true, msbSoloVisible := true,
      msbSoloToggleState := solo i, msbMuteEnabled := true, msbMuteVisible := true,
      msbMuteToggleState := mute i, pvisActive := true, pvisVisible := true }
  pvisSoloActive := fun _ => (List.range maxNumberBands).any solo
  deqActive := true
  deqSoloActive := (List.range maxNumberBands).any solo
  tbSetNrBandsEnabled := fun _ => true
  tbSetNrBandsToggleState := fun i => decide ((i : Int) = p.nBands - 1)
  tbSyncChannelEnabled := fun _ => true
  tbSyncChannelToggleState := fun i => decide ((i : Int) = p.syncChannelIdx - 1)
  tbLoadFileEnabled := true
  tbSaveFileEnabled := true
  tbEqEnabled := fun _ => true
  tbEqToggleState := fun _ => false
  tbAllowBackwardsPatternEnabled := true
  tbRecordDisturberEnabled := true
  tbRecordSignalEnabled := true
  slProximityEnabled := true
  tbZeroDelayEnabled := true
  tbZeroDelayToggleState := p.zeroDelayMode
  tbAbButtonToggleState := fun _ => false
  alOverlayErrorVisible := false
  alOverlayErrorTitle := ""
  alOverlayErrorMessage := ""
  alOverlayDisturberVisible := false
  alOverlayDisturberRatioEnabled := false
  alOverlaySignalVisible := false
  alOverlaySignalRatioEnabled := false
  paramWrites := []

/-- The constructor: the widgets are set up, then `nActiveBandsChanged` runs twice,
`zeroDelayModeChange` once, and `setEqMode` once. -/
def construct (p : Processor) (solo mute : Nat → Bool) : Editor :=
  let s := constructed p solo mute
  let s := nActiveBandsChanged s
  let s := nActiveBandsChanged s
  let s := zeroDelayModeChange s
  setEqMode s

/-! ## Reachable states -/

/-- The states the editor can be in: built by the constructor, then driven by the engine
changing what it reports (its call log is only written by the editor), by clicks on the
record, load and save buttons while they are enabled, by the buttons of a visible overlay,
and by timer ticks. -/
inductive Reachable : Editor → Prop where
  | construct (p : Processor) (solo mute : Nat → Bool) : Reachable (construct p solo mute)
  | engine (s : Editor) (p : Processor) (hs : Reachable s)
      (hcalls : p.calls = s.processor.calls) : Reachable { s with processor := p }
  | startDisturberTracking (s : Editor) (hs : Reachable s)
      (hen : s.tbRecordDisturberEnabled = true) :
      Reachable (buttonClicked Button.tbRecordDisturber PresetOutcome.dismissed s)
  | startSignalTracking (s : Editor) (hs : Reachable s)
      (hen : s.tbRecordSignalEnabled = true) :
      Reachable (buttonClicked Button.tbRecordSignal PresetOutcome.dismissed s)
  | loadFailed (s : Editor) (message : String) (hs : Reachable s)
      (hen : s.tbLoadFileEnabled = true) :
      Reachable (buttonClicked Button.tbLoadFile (PresetOutcome.failed message) s)
  | saveFailed (s : Editor) (message : String) (hs : Reachable s)
      (hen : s.tbSaveFileEnabled = true) :
      Reachable (buttonClicked Button.tbSaveFile (PresetOutcome.failed message) s)
  | apply (s : Editor) (hs : Reachable s)
      (hvis : s.alOverlayDisturberVisible = true ∨ s.alOverlaySignalVisible = true) :
      Reachable (onAlOverlayApplyPattern s)
  | cancel (s : Editor) (hs : Reachable s)
      (hvis : s.alOverlayDisturberVisible = true ∨ s.alOverlaySignalVisible = true) :
      Reachable (onAlOverlayCancelRecord s)
  | maximizeRatio (s : Editor) (hs : Reachable s)
      (hvis : (s.alOverlayDisturberVisible = true ∧ s.alOverlayDisturberRatioEnabled = true) ∨
        (s.alOverlaySignalVisible = true ∧ s.alOverlaySignalRatioEnabled = true)) :
      Reachable (onAlOverlayMaxSigToDist s)
  | acknowledge (s : Editor) (hs : Reachable s) (hvis : s.alOverlayErrorVisible = true) :
      Reachable (onAlOverlayErrorOkay s)
  | tick (s : Editor) (hs : Reachable s) : Reachable (timerCallback s)

/-- The number of overlays that are visible. -/
def Editor.visibleOverlays (s : Editor) : Nat :=
  s.alOverlayErrorVisible.toNat + s.alOverlayDisturberVisible.toNat +
    s.alOverlaySignalVisible.toNat

/-! ## Layout -/

/-- The function `getBandLimitWidthVector`, with the member `nActiveBands` as first
argument.  The value `bandlimitX i` is
`directivityEqualiser.getBandlimitPathComponent (i).getX ()`.  The `float` values are taken
as rationals, so the arithmetic is exact.  The second loop runs with `i = k + 1`. -/
def getBandLimitWidthVector (nActiveBands : Int) (bandlimitX : Nat → Int)
    (dirEqSize offsetPolVis : ℚ) : List ℚ :=
  let bandLimit : List ℚ := [0]
  let bandLimit := forLoop (nActiveBands - 1).toNat
    (fun i bl => bl ++ [(bandlimitX i : ℚ) - offsetPolVis]) bandLimit
  let bandLimit := bandLimit ++ [dirEqSize]
  let bandLimitWidth : List ℚ := [dirEqSize]
  forLoop (bandLimit.length - 1)
    (fun k w => w ++ [bandLimit.getD (k + 1) 0 - bandLimit.getD (k + 1 - 1) 0]) bandLimitWidth

/-- The dynamic layout of `resized`: the band slots added to the flex boxes, in order, each
with the band it holds and its flex value `pVisflex`.  The value `deqWidth` is
`directivityEqualiser.getWidth ()`.  A read outside `bandLimitWidth` gives `none`. -/
def resizedBandSlots (s : Editor) (bandlimitX : Nat → Int) (deqWidth : Int) :
    Option (List (Nat × ℚ)) :=
  let offsetDirEQ : ℚ := 42
  let offsetPolVis : ℚ := 29
  let dirEqSize : ℚ := (deqWidth : ℚ) - offsetDirEQ
  let bandLimitWidth := getBandLimitWidthVector s.nActiveBands bandlimitX dirEqSize offsetPolVis
  if s.nActiveBands < 2 then
    if (s.band 0).pvisActive then
      match bandLimitWidth[0]? with
      | some w => some [(0, w / dirEqSize)]
      | none => none
    else some []
  else
    forLoop s.nActiveBands.toNat (fun i acc =>
      if (s.band i).pvisActive then
        match acc, bandLimitWidth[i + 1]? with
        | some slots, some w => some (slots ++ [(i, w / dirEqSize)])
        | _, _ => none
      else acc) (some [])

/-- The boundary sequence as the specification words it: `b[0] = 0`,
`b[i] = x[i-1] - offset` for `1 ≤ i ≤ n - 1`, `b[n] = W`. -/
def specBoundary (n : Nat) (x : Nat → Int) (W offset : ℚ) (i : Nat) : ℚ :=
  if i = 0 then 0 else if i < n then (x (i - 1) : ℚ) - offset else W

/-! ## Sample states -/

/-- A processor with three bands, zero latency off, nothing recorded, no flag set. -/
def sampleProcessor : Processor where
  nBands := 3
  syncChannelIdx := 0
  zeroDelayMode := false
  signalRecorded := false
  disturberRecorded := false
  eqState := 0
  repaintDEQ := false
  didNRActiveBandsChange := false
  zeroDelayModeChanged := false
  ffDfEqChanged := false
  calls := []

/-- The editor the constructor builds on `sampleProcessor`, no band soloed or muted. -/
def sampleEditor : Editor :=
  construct sampleProcessor (fun _ => false) (fun _ => false)

/-- The sample editor after a click on "terminate spill". -/
def sampleTrackingDisturber : Editor :=
  buttonClicked Button.tbRecordDisturber PresetOutcome.dismissed sampleEditor

/-- While the disturber overlay is open, the engine raises `zeroDelayModeChanged` (zero
latency still off). -/
def sampleFlagRaised : Editor :=
  { sampleTrackingDisturber with
    processor := { sampleTrackingDisturber.processor with zeroDelayModeChanged := true } }

/-- The next timer tick, then a click on "maximize target". -/
def sampleTwoOverlays : Editor :=
  buttonClicked Button.tbRecordSignal PresetOutcome.dismissed (timerCallback sampleFlagRaised)

/-! ## Views used to state properties -/

/-- No overlay is visible: the workflow is idle. -/
def Editor.idle (s : Editor) : Prop :=
  s.alOverlayErrorVisible = false ∧ s.alOverlayDisturberVisible = false ∧
  s.alOverlaySignalVisible = false

/-- Every control of the side area has the enabled state `v`. -/
def Editor.sideAreaIs (s : Editor) (v : Bool) : Prop :=
  (∀ i : Nat, i < 5 → s.tbSetNrBandsEnabled i = v) ∧
  (∀ i : Nat, i < 6 → s.tbSyncChannelEnabled i = v) ∧
  s.tbLoadFileEnabled = v ∧ s.tbSaveFileEnabled = v ∧ (∀ i : Nat, i < 3 → s.tbEqEnabled i = v) ∧
  s.tbAllowBackwardsPatternEnabled = v ∧ s.tbRecordDisturberEnabled = v ∧
  s.tbRecordSignalEnabled = v ∧ s.slProximityEnabled = v

/-- The main area is interactive: the equaliser is active, the zero latency button is
enabled, and the controls of every band below the stored band count are enabled. -/
def Editor.mainAreaEnabled (s : Editor) : Prop :=
  s.deqActive = true ∧ s.tbZeroDelayEnabled = true ∧
  ∀ i : Nat, i < 5 → (i : Int) < s.nActiveBands → (s.band i).slDirEnabled = true ∧
    (s.band i).slBandGainEnabled = true ∧ (s.band i).msbSoloEnabled = true ∧
    (s.band i).msbMuteEnabled = true

/-- What leaving a tracking overlay with result `code` must achieve from `s`: no overlay is
visible in `t`, main and side areas are enabled, and the processor has received one more
call, `stopTracking (code)`. -/
def closesTracking (code : Int) (s t : Editor) : Prop :=
  t.idle ∧ t.mainAreaEnabled ∧ t.sideAreaIs true ∧
  t.processor.calls = s.processor.calls ++ [ProcessorCall.stopTracking code]

/-- What a click on a record button must achieve from `s`: the processor has received one
more call, `startTracking (wantDisturber)`; the overlay asked for is visible in `t` and
no other; the controls of every band below the stored band count are disabled; every
side-area control is disabled. -/
def opensTracking (wantDisturber : Bool) (s t : Editor) : Prop :=
  t.processor.calls = s.processor.calls ++ [ProcessorCall.startTracking wantDisturber] ∧
  t.alOverlayErrorVisible = false ∧ t.alOverlayDisturberVisible = wantDisturber ∧
  t.alOverlaySignalVisible = !wantDisturber ∧
  (∀ i : Nat, i < 5 → (i : Int) < s.nActiveBands → (t.band i).slDirEnabled = false ∧
    (t.band i).slBandGainEnabled = false ∧ (t.band i).msbSoloEnabled = false ∧
    (t.band i).msbMuteEnabled = false) ∧
  t.sideAreaIs false

instance (s : Editor) : Decidable s.idle := by
  unfold Editor.idle; infer_instance

instance (s : Editor) (v : Bool) : Decidable (s.sideAreaIs v) := by
  unfold Editor.sideAreaIs; infer_instance

instance (s : Editor) : Decidable s.mainAreaEnabled := by
  unfold Editor.mainAreaEnabled; infer_instance

instance (code : Int) (s t : Editor) : Decidable (closesTracking code s t) := by
  unfold closesTracking; infer_instance

/-- Band `i` is interactive: direction slider, gain slider, solo and mute buttons are
enabled. -/
def Editor.bandEnabled (s : Editor) (i : Nat) : Prop :=
  (s.band i).slDirEnabled = true ∧ (s.band i).slBandGainEnabled = true ∧
  (s.band i).msbSoloEnabled = true ∧ (s.band i).msbMuteEnabled = true

/-- Band `i` is not interactive: all four controls are disabled. -/
def Editor.bandDisabled (s : Editor) (i : Nat) : Prop :=
  (s.band i).slDirEnabled = false ∧ (s.band i).slBandGainEnabled = false ∧
  (s.band i).msbSoloEnabled = false ∧ (s.band i).msbMuteEnabled = false

/-- Band `i` is shown: its four controls and its visualizer are visible. -/
def Editor.bandVisible (s : Editor) (i : Nat) : Prop :=
  (s.band i).slDirVisible = true ∧ (s.band i).slBandGainVisible = true ∧
  (s.band i).msbSoloVisible = true ∧ (s.band i).msbMuteVisible = true ∧
  (s.band i).pvisVisible = true

/-- Band `i` is hidden: its four controls and its visualizer are invisible. -/
def Editor.bandHidden (s : Editor) (i : Nat) : Prop :=
  (s.band i).slDirVisible = false ∧ (s.band i).slBandGainVisible = false ∧
  (s.band i).msbSoloVisible = false ∧ (s.band i).msbMuteVisible = false ∧
  (s.band i).pvisVisible = false

instance (s : Editor) (i : Nat) : Decidable (s.bandEnabled i) := by
  unfold Editor.bandEnabled; infer_instance

instance (s : Editor) (i : Nat) : Decidable (s.bandDisabled i) := by
  unfold Editor.bandDisabled; infer_instance

instance (s : Editor) (i : Nat) : Decidable (s.bandVisible i) := by
  unfold Editor.bandVisible; infer_instance

instance (s : Editor) (i : Nat) : Decidable (s.bandHidden i) := by
  unfold Editor.bandHidden; infer_instance

/-- What one pass of the loop of `nActiveBandsChanged` leaves in the controls of its band. -/
def bandAfterCount (active : Bool) (b : BandControls) : BandControls :=
  if active then
    { b with
      slDirEnabled := true, slBandGainEnabled := true, msbSoloEnabled := true,
      msbMuteEnabled := true, pvisActive := true, pvisVisible := true, slDirVisible := true,
      slBandGainVisible := true, msbSoloVisible := true, msbMuteVisible := true }
  else
    { slDirEnabled := false, slBandGainEnabled := false, msbSoloEnabled := false,
      msbSoloToggleState := false, msbMuteEnabled := false, msbMuteToggleState := false,
      pvisActive := false, pvisVisible := false, slDirVisible := false,
      slBandGainVisible := false, msbSoloVisible := false, msbMuteVisible := false }

/-- What one pass of the loop of `zeroDelayModeChange` leaves in the controls of its band. -/
def bandAfterZeroDelay (active : Bool) (b : BandControls) : BandControls :=
  if active then
    { b with
      slDirEnabled := true, slBandGainEnabled := true, msbSoloEnabled := true,
      msbMuteEnabled := true, pvisActive := true }
  else
    { b with
      slDirEnabled := false, slBandGainEnabled := false, msbSoloEnabled := false,
      msbSoloToggleState := false, msbMuteEnabled := false, msbMuteToggleState := false,
      pvisActive := false }

/-- The engine switches zero latency mode to `v`. -/
def Editor.withZeroDelayMode (s : Editor) (v : Bool) : Editor :=
  { s with processor := { s.processor with zeroDelayMode := v } }

/-- The state `nActiveBandsChanged` leaves when the processor reports three bands, starting
from the widgets as the constructor sets them up. -/
def sampleThreeBands : Editor :=
  nActiveBandsChanged (constructed sampleProcessor (fun _ => false) (fun _ => false))

/-- The sample editor with the signal overlay open. -/
def sampleTrackingSignal : Editor :=
  buttonClicked Button.tbRecordSignal PresetOutcome.dismissed sampleEditor

/-- An observation of the editor that does not look at solo highlights, the sync-channel
selection or the parameter writes. -/
def SoloBlind {α : Type} (P : Editor → α) : Prop :=
  ∀ (s : Editor) (pv : Nat → Bool) (dq : Bool) (tg : Nat → Bool) (pw : List (ParamId × Int)),
    P { s with pvisSoloActive := pv, deqSoloActive := dq, tbSyncChannelToggleState := tg,
               paramWrites := pw } = P s

/-- An observation of the editor that does not look at the band controls or at the enabled
state of the sync-channel buttons. -/
def BandBlind {α : Type} (P : Editor → α) : Prop :=
  ∀ (s : Editor) (bd : Nat → BandControls) (en : Nat → Bool),
    P { s with band := bd, tbSyncChannelEnabled := en } = P s

/-! ## The endless slider (trim control) -/

/-- The callbacks an `EndlessSlider` invokes. -/
inductive TrimEvent where
  | increment
  | decrement
  deriving DecidableEq, Repr

/-- The members of `EndlessSlider`.  The field `emitted` logs the calls of the callbacks
`sliderIncremented` and `sliderDecremented`, oldest first.  The `float` literal of `step`
is read as the decimal it denotes. -/
structure EndlessSlider where
  step : ℚ
  lastMoved : Int
  currentMoved : Int
  mouseWheelMovedCounter : Int
  emitted : List TrimEvent

/-- The constructor of `EndlessSlider`. -/
def EndlessSlider.new : EndlessSlider where
  step := 12725 / 1000000
  lastMoved := 0
  currentMoved := 0
  mouseWheelMovedCounter := 0
  emitted := []

/-- What `mouseDrag` reads from its `MouseEvent`. -/
structure MouseEvent where
  mouseWasDraggedSinceMouseDown : Bool
  distanceFromDragStartY : Int
  deriving DecidableEq, Repr

/-- The call `sliderDecremented ()`. -/
def EndlessSlider.sliderDecremented (t : EndlessSlider) : EndlessSlider :=
  { t with emitted := t.emitted ++ [TrimEvent.decrement] }

/-- The call `sliderIncremented ()`. -/
def EndlessSlider.sliderIncremented (t : EndlessSlider) : EndlessSlider :=
  { t with emitted := t.emitted ++ [TrimEvent.increment] }

/-- The comparison of `currentMoved` with `lastMoved` shared by `mouseDrag` and
`mouseWheelMove`, with the callback it selects. -/
def EndlessSlider.compareAndNotify (t : EndlessSlider) : EndlessSlider :=
  if t.currentMoved > t.lastMoved then t.sliderDecremented
  else if t.currentMoved < t.lastMoved then t.sliderIncremented
  else t

/-- The function `EndlessSlider::mouseDrag`. -/
def EndlessSlider.mouseDrag (e : MouseEvent) (t : EndlessSlider) : EndlessSlider :=
  if e.mouseWasDraggedSinceMouseDown then
    let t := { t with currentMoved := e.distanceFromDragStartY }
    let t := t.compareAndNotify
    { t with lastMoved := t.currentMoved }
  else t

/-- The conversion of a `float` to `int`: truncation toward zero. -/
def truncToInt (q : ℚ) : Int :=
  if 0 ≤ q then ⌊q⌋ else ⌈q⌉

/-- Rounding of a rational to the nearest integer, a tie to the even one. -/
def roundHalfEven (x : ℚ) : Int :=
  if x - ⌊x⌋ < 1 / 2 then ⌊x⌋
  else if 1 / 2 < x - ⌊x⌋ then ⌊x⌋ + 1
  else if ⌊x⌋ % 2 = 0 then ⌊x⌋ else ⌊x⌋ + 1

/-- The value of type `float` nearest to `q`, a tie to the even significand: IEEE binary32,
with 24 significant bits and least exponent -126 (below it the values are subnormal,
multiples of `2 ^ (-149)`).  The exponent is not bounded above here; `floatMul` does
that. -/
def roundFloat (q : ℚ) : ℚ :=
  (roundHalfEven (q / 2 ^ (max (Int.log 2 |q|) (-126) - 23)) : ℚ) *
    2 ^ (max (Int.log 2 |q|) (-126) - 23)

/-- A multiplication of two `float` values: the exact product rounded to `float`; `none`
when the rounded product is past the largest finite `float` (the code gets an infinity). -/
def floatMul (a b : ℚ) : Option ℚ :=
  if |roundFloat (a * b)| < 2 ^ 128 then some (roundFloat (a * b)) else none

/-- The conversion of an `int` to `float`. -/
def intToFloat (n : Int) : ℚ :=
  roundFloat (n : ℚ)

/-- The conversion of a `float` to `int`: truncation toward zero, undefined (`none`) when
the truncated value is outside the range of `int`. -/
def floatToInt (x : ℚ) : Option Int :=
  if -2 ^ 31 ≤ truncToInt x ∧ truncToInt x < 2 ^ 31 then some (truncToInt x) else none

/-- The function `EndlessSlider::mouseWheelMove`; `deltaY` is the value of the `float`
`wheel.deltaY` and `height` the height of the local bounds, an `int` that `toFloat`
converts.  The product `wheel.deltaY * height * mouseWheelMovedCounter` is computed in
`float`, left to right, each multiplication rounded, and converted to `int` by the
assignment to `currentMoved`.  The result is `none` where the code has no defined result:
the counter at the largest `int`, a product that is not finite, or one outside the range of
`int`. -/
def EndlessSlider.mouseWheelMove (deltaY : ℚ) (height : Int) (t : EndlessSlider) :
    Option EndlessSlider :=
  if t.mouseWheelMovedCounter + 1 < 2 ^ 31 then
    let t := { t with mouseWheelMovedCounter := t.mouseWheelMovedCounter + 1 }
    (floatMul deltaY (intToFloat height)).bind fun p =>
      (floatMul p (intToFloat t.mouseWheelMovedCounter)).bind fun q =>
        (floatToInt q).map fun c =>
          let t := { t with currentMoved := c }
          let t := t.compareAndNotify
          { t with lastMoved := t.currentMoved }
  else none

/-- The product of `mouseWheelMove` as a formula: `deltaY * height * counter` with the
`int` operands converted to `float` and each multiplication rounded to `float`. -/
def wheelProduct (deltaY : ℚ) (height counter : Int) : ℚ :=
  roundFloat (roundFloat (deltaY * roundFloat (height : ℚ)) * roundFloat (counter : ℚ))

/-- The `float` literal `0.29f`. -/
def float029 : ℚ := 9730785 / 33554432

/-- The `float` literal `0.01f`. -/
def float001 : ℚ := 10737418 / 1073741824

/-- The emission rule as the specification words it. -/
def specEmission (last current : Int) : List TrimEvent :=
  if current > last then [TrimEvent.decrement]
  else if current < last then [TrimEvent.increment]
  else []

/-- A run of `mouseDrag` calls, in order. -/
def EndlessSlider.feed (es : List MouseEvent) (t : EndlessSlider) : EndlessSlider :=
  es.foldl (fun t e => t.mouseDrag e) t

/-- The drag events of a displacement sequence whose every sample counts as a drag. -/
def registered (ds : List Int) : List MouseEvent :=
  ds.map fun d => { mouseWasDraggedSinceMouseDown := true, distanceFromDragStartY := d }

/-! ## Trim of the direction sliders -/

/-- Modelled from the spec: the direction weight is continuous with a range the engine
defines, and the engine is not part of the sources.  This is the state of one JUCE slider
that `setValue` reads and writes: its value, its range and its step interval (no interval
when it is not positive). -/
structure SliderState where
  value : ℚ
  minimum : ℚ
  maximum : ℚ
  interval : ℚ
  deriving DecidableEq, Repr

/-- JUCE `Slider::setValue`: the new value is snapped to the interval, when there is one,
and limited to the range.  Listeners are not modelled. -/
def SliderState.setValue (newValue : ℚ) (sl : SliderState) : SliderState :=
  let v := if 0 < sl.interval
    then sl.minimum + sl.interval * ⌊(newValue - sl.minimum) / sl.interval + 1 / 2⌋
    else newValue
  let v := if v ≤ sl.minimum ∨ sl.maximum ≤ sl.minimum then sl.minimum
    else if sl.maximum ≤ v then sl.maximum else v
  { sl with value := v }

/-- The function `incrementTrim`, on the direction sliders `slDir`, with `trimSlider.step`
as `step`. -/
def incrementTrim (nBands : Int) (step : ℚ) (slDir : Nat → SliderState) : Nat → SliderState :=
  forLoop nBands.toNat (fun i sl => upd sl i ((sl i).setValue ((sl i).value + step))) slDir

/-- The function `decrementTrim`. -/
def decrementTrim (nBands : Int) (step : ℚ) (slDir : Nat → SliderState) : Nat → SliderState :=
  forLoop nBands.toNat (fun i sl => upd sl i ((sl i).setValue ((sl i).value - step))) slDir

/-- The callback `trimSlider.sliderIncremented` the constructor installs. -/
def trimSliderIncremented (s : Editor) (t : EndlessSlider) (slDir : Nat → SliderState) :
    Nat → SliderState :=
  incrementTrim s.nActiveBands t.step slDir

/-- The callback `trimSlider.sliderDecremented` the constructor installs. -/
def trimSliderDecremented (s : Editor) (t : EndlessSlider) (slDir : Nat → SliderState) :
    Nat → SliderState :=
  decrementTrim s.nActiveBands t.step slDir

/-- Five direction sliders at 99/100 in the range from 0 to 1, continuous. -/
def sampleSlDir : Nat → SliderState :=
  fun _ => { value := 99 / 100, minimum := 0, maximum := 1, interval := 0 }

/-- Five direction sliders at 0 in the range from 0 to 1, continuous. -/
def sampleSlDirLow : Nat → SliderState :=
  fun _ => { value := 0, minimum := 0, maximum := 1, interval := 0 }

/-! ## Timer, with the handlers it runs -/

/-- The reconciliations `timerCallback` can run, one per flag. -/
inductive Reconcile where
  | repaint
  | bandCount
  | zeroDelay
  | eqMode
  deriving DecidableEq, Repr

/-- The flag of the processor that asks for a reconciliation. -/
def Reconcile.flag : Reconcile → Processor → Bool
  | Reconcile.repaint, p => p.repaintDEQ
  | Reconcile.bandCount, p => p.didNRActiveBandsChange
  | Reconcile.zeroDelay, p => p.zeroDelayModeChanged
  | Reconcile.eqMode, p => p.ffDfEqChanged

/-- The function `timerCallback` again, returning with the state the list of the handlers it
has called (`directivityEqualiser.repaint`, `nActiveBandsChanged`, `zeroDelayModeChange`,
`setEqMode`), in call order. -/
def timerCallbackTraced (s : Editor) : Editor × List Reconcile :=
  let r : Editor × List Reconcile := (s, [])
  let r := if r.1.processor.repaintDEQ
    then ({ r.1 with processor := { r.1.processor with repaintDEQ := false } },
      r.2 ++ [Reconcile.repaint])
    else r
  let r := if r.1.processor.didNRActiveBandsChange
    then (nActiveBandsChanged
        { r.1 with processor := { r.1.processor with didNRActiveBandsChange := false } },
      r.2 ++ [Reconcile.bandCount])
    else r
  let r := if r.1.processor.zeroDelayModeChanged
    then (zeroDelayModeChange
        { r.1 with processor := { r.1.processor with zeroDelayModeChanged := false } },
      r.2 ++ [Reconcile.zeroDelay])
    else r
  let r := if r.1.processor.ffDfEqChanged
    then (setEqMode { r.1 with processor := { r.1.processor with ffDfEqChanged := false } },
      r.2 ++ [Reconcile.eqMode])
    else r
  r

/-! ## Clicks on solo and mute -/

/-- Modelled from the spec: the class of the solo and mute buttons is not part of the
sources.  A click on the solo button of band `i` flips its toggle state, then the listener
`buttonClicked` runs. -/
def toggleSolo (i : Nat) (s : Editor) : Editor :=
  buttonClicked (Button.msbSolo i) PresetOutcome.dismissed
    (s.modBand i fun b => { b with msbSoloToggleState := !b.msbSoloToggleState })

/-- Modelled from the spec: a click on the mute button of band `i` flips its toggle state,
then the listener `buttonClicked` runs. -/
def toggleMute (i : Nat) (s : Editor) : Editor :=
  buttonClicked (Button.msbMute i) PresetOutcome.dismissed
    (s.modBand i fun b => { b with msbMuteToggleState := !b.msbMuteToggleState })

/-! ## More sample states -/

/-- Three bands enabled; the engine has raised `didNRActiveBandsChange` and
`zeroDelayModeChanged` (zero latency off) before the next tick. -/
def sampleBothFlags : Editor :=
  { sampleThreeBands with
    processor := { sampleThreeBands.processor with
      didNRActiveBandsChange := true, zeroDelayModeChanged := true } }

/-- Three bands enabled; the processor now reports seven bands. -/
def sampleSevenBands : Editor :=
  { sampleThreeBands with processor := { sampleThreeBands.processor with nBands := 7 } }

/-- Three bands enabled; the processor now reports no band. -/
def sampleNoBands : Editor :=
  { sampleThreeBands with processor := { sampleThreeBands.processor with nBands := 0 } }

/-- Three bands enabled and band 2 soloed, then "terminate spill" clicked. -/
def sampleSoloTracking : Editor :=
  buttonClicked Button.tbRecordDisturber PresetOutcome.dismissed
    (sampleThreeBands.modBand 2 fun b => { b with msbSoloToggleState := true })

/-- While the disturber overlay of `sampleSoloTracking` is open the processor changes to two
bands, and the timer has not yet run. -/
def sampleStaleCount : Editor :=
  { sampleSoloTracking with
    processor := { sampleSoloTracking.processor with nBands := 2 } }

/-- Three bands enabled, band 1 soloed and band 4 muted. -/
def sampleSoloMute : Editor :=
  (sampleThreeBands.modBand 1 fun b => { b with msbSoloToggleState := true }).modBand 4
    fun b => { b with msbMuteToggleState := true }

/-! ## States and views for presets, trim and polls -/

/-- The sample editor after a tick that found `didNRActiveBandsChange` set: idle, three
bands stored and enabled. -/
def samplePolled : Editor :=
  timerCallback
    { sampleEditor with
      processor := { sampleEditor.processor with didNRActiveBandsChange := true } }

/-- From `samplePolled`, "terminate spill" is clicked, and the engine raises
`didNRActiveBandsChange` while the disturber overlay is open. -/
def sampleBandFlagUnderOverlay : Editor :=
  { buttonClicked Button.tbRecordDisturber PresetOutcome.dismissed samplePolled with
    processor :=
      { (buttonClicked Button.tbRecordDisturber PresetOutcome.dismissed samplePolled).processor
        with didNRActiveBandsChange := true } }

/-- What a failed load or save must achieve from `s`: the error overlay is visible in `t`
with message `m`, no tracking overlay is visible, the processor has received no further
call, the controls of every band below the stored band count are disabled, and every
side-area control is disabled. -/
def opensError (m : String) (s t : Editor) : Prop :=
  t.alOverlayErrorVisible = true ∧ t.alOverlayErrorMessage = m ∧
  t.alOverlayDisturberVisible = false ∧ t.alOverlaySignalVisible = false ∧
  t.processor.calls = s.processor.calls ∧
  (∀ i : Nat, i < 5 → (i : Int) < s.nActiveBands → (t.band i).slDirEnabled = false ∧
    (t.band i).slBandGainEnabled = false ∧ (t.band i).msbSoloEnabled = false ∧
    (t.band i).msbMuteEnabled = false) ∧
  t.sideAreaIs false

/-- A failed load acknowledged: the click on "load preset" with a failing outcome, then the
okay button of the error overlay. -/
def loadFailedThenAcknowledged (m : String) (s : Editor) : Editor :=
  onAlOverlayErrorOkay (buttonClicked Button.tbLoadFile (PresetOutcome.failed m) s)

/-- A failed save acknowledged. -/
def saveFailedThenAcknowledged (m : String) (s : Editor) : Editor :=
  onAlOverlayErrorOkay (buttonClicked Button.tbSaveFile (PresetOutcome.failed m) s)

/-- The enabled state of the four controls of a band. -/
def BandControls.enabledState (b : BandControls) : Bool × Bool × Bool × Bool :=
  (b.slDirEnabled, b.slBandGainEnabled, b.msbSoloEnabled, b.msbMuteEnabled)

/-- What acknowledging an error leaves, from `s`: no overlay is visible, the main area and
the side area are enabled, the stored band count is the one the processor reports, and the
controls of the bands from that count up are disabled. -/
def reenabled (s t : Editor) : Prop :=
  t.idle ∧ t.mainAreaEnabled ∧ t.sideAreaIs true ∧ t.nActiveBands = s.processor.nBands ∧
  ∀ i : Nat, i < 5 → s.processor.nBands ≤ (i : Int) → t.bandDisabled i

/-- An editor built on a processor with three bands and zero latency on, after a tick that
found `didNRActiveBandsChange` set: zero latency is still on and the stored band count
is 3. -/
def sampleZeroDelayPolled : Editor :=
  timerCallback
    { construct { sampleProcessor with zeroDelayMode := true } (fun _ => false)
        (fun _ => false) with
      processor :=
        { (construct { sampleProcessor with zeroDelayMode := true } (fun _ => false)
            (fun _ => false)).processor with didNRActiveBandsChange := true } }

/-- Five direction sliders at 1/2 in the range from 0 to 1, continuous. -/
def sampleSlDirMid : Nat → SliderState :=
  fun _ => { value := 1 / 2, minimum := 0, maximum := 1, interval := 0 }

/-- The sample state with three bands whose middle visualizer is inactive. -/
def sampleMiddleInactive : Editor :=
  sampleThreeBands.modBand 1 fun b => { b with pvisActive := false }

/-- The widgets as the constructor sets them up when the processor reports sync channel 3:
the third sync-channel button is selected. -/
def sampleSyncThree : Editor :=
  constructed { sampleProcessor with syncChannelIdx := 3 } (fun _ => false) (fun _ => false)

/-- An observation of the editor that does not look at the solo highlights. -/
def HighlightBlind {α : Type} (P : Editor → α) : Prop :=
  ∀ (s : Editor) (pv : Nat → Bool) (dq : Bool),
    P { s with pvisSoloActive := pv, deqSoloActive := dq } = P s

/-- An observation of the editor that does not look at the band controls. -/
def BandOnlyBlind {α : Type} (P : Editor → α) : Prop :=
  ∀ (s : Editor) (bd : Nat → BandControls), P { s with band := bd } = P s

/-! ## Automation shortcut -/

/-- The components `getControlParameterIndex` tells apart by address: the four crossover
handles and five direction paths of the equaliser, the direction sliders, solo buttons, mute
buttons and gain sliders of the five bands, the proximity slider, and any other component. -/
inductive Control where
  | bandlimitPathComponent (j : Fin 4)
  | dirPathComponent (i : Fin 5)
  | slDir (i : Fin 5)
  | msbSolo (i : Fin 5)
  | msbMute (i : Fin 5)
  | slBandGain (i : Fin 5)
  | slProximity
  | other (k : Nat)
  deriving DecidableEq

/-- The function `getControlParameterIndex`; the address test `&control == &c` is equality of
components. -/
def getControlParameterIndex (s : Editor) (control : Control) : Int :=
  if control = Control.bandlimitPathComponent 0 ∧ s.nActiveBands > 1 then 0
  else if control = Control.bandlimitPathComponent 1 ∧ s.nActiveBands > 2 then 1
  else if control = Control.bandlimitPathComponent 2 ∧ s.nActiveBands > 3 then 2
  else if control = Control.bandlimitPathComponent 3 ∧ s.nActiveBands > 4 then 3
  else if control = Control.slDir 0 ∨ control = Control.dirPathComponent 0 then 4
  else if (control = Control.slDir 1 ∨ control = Control.dirPathComponent 1) ∧
      s.nActiveBands > 1 then 5
  else if (control = Control.slDir 2 ∨ control = Control.dirPathComponent 2) ∧
      s.nActiveBands > 2 then 6
  else if (control = Control.slDir 3 ∨ control = Control.dirPathComponent 3) ∧
      s.nActiveBands > 3 then 7
  else if (control = Control.slDir 4 ∨ control = Control.dirPathComponent 4) ∧
      s.nActiveBands > 4 then 8
  else if control = Control.msbSolo 0 then 9
  else if control = Control.msbSolo 1 ∧ s.nActiveBands > 1 then 10
  else if control = Control.msbSolo 2 ∧ s.nActiveBands > 2 then 11
  else if control = Control.msbSolo 3 ∧ s.nActiveBands > 3 then 12
  else if control = Control.msbSolo 4 ∧ s.nActiveBands > 4 then 13
  else if control = Control.msbMute 0 then 14
  else if control = Control.msbMute 1 ∧ s.nActiveBands > 1 then 15
  else if control = Control.msbMute 2 ∧ s.nActiveBands > 2 then 16
  else if control = Control.msbMute 3 ∧ s.nActiveBands > 3 then 17
  else if control = Control.msbMute 4 ∧ s.nActiveBands > 4 then 18
  else if control = Control.slBandGain 0 then 19
  else if control = Control.slBandGain 1 ∧ s.nActiveBands > 1 then 20
  else if control = Control.slBandGain 2 ∧ s.nActiveBands > 2 then 21
  else if control = Control.slBandGain 3 ∧ s.nActiveBands > 3 then 22
  else if control = Control.slBandGain 4 ∧ s.nActiveBands > 4 then 23
  else if control = Control.slProximity then 26
  else -1

/-! # Properties -/

/-! ## Loop and frame lemmas -/

theorem forLoop_frame {σ α : Type} (P : σ → α) (body : Nat → σ → σ)
    (h : ∀ i s, P (body i s) = P s) (n : Nat) (s : σ) : P (forLoop n body s) = P s := by
  induction n with
  | zero => rfl
  | succ k ih => rw [forLoop, h, ih]

@[simp] theorem upd_same {α : Type} (f : Nat → α) (i : Nat) (v : α) : upd f i v i = v := by
  simp [upd]

theorem upd_of_ne {α : Type} (f : Nat → α) {i j : Nat} (v : α) (h : j ≠ i) :
    upd f i v j = f j := by
  simp [upd, h]

theorem upd_eq_self {α : Type} (f : Nat → α) (i : Nat) (v : α) (h : f i = v) :
    upd f i v = f := by
  funext j
  by_cases hj : j = i
  · subst hj; simp [h]
  · simp [upd, hj]

@[simp] theorem band_modBand (s : Editor) (i : Nat) (f : BandControls → BandControls) :
    (s.modBand i f).band = upd s.band i (f (s.band i)) := rfl

@[simp] theorem band_buttonClickedMuteSolo (s : Editor) :
    (buttonClickedMuteSolo s).band = s.band := rfl

theorem band_msbSoloSetToggleState (i : Nat) (v : Bool) (s : Editor) :
    (msbSoloSetToggleState i v s).band =
      upd s.band i { s.band i with msbSoloToggleState := v } := by
  unfold msbSoloSetToggleState
  split
  · next h => rw [upd_eq_self]; simp [← h]
  · rfl

theorem band_msbMuteSetToggleState (i : Nat) (v : Bool) (s : Editor) :
    (msbMuteSetToggleState i v s).band =
      upd s.band i { s.band i with msbMuteToggleState := v } := by
  unfold msbMuteSetToggleState
  split
  · next h => rw [upd_eq_self]; simp [← h]
  · rfl

theorem soloBlind_buttonClickedMuteSolo {α : Type} {P : Editor → α} (hP : SoloBlind P)
    (s : Editor) : P (buttonClickedMuteSolo s) = P s :=
  hP s _ _ _ _

theorem soloBlind_buttonClickedSyncChannel {α : Type} {P : Editor → α} (hP : SoloBlind P)
    (k : Nat) (s : Editor) : P (buttonClickedSyncChannel k s) = P s := by
  unfold buttonClickedSyncChannel
  rw [soloBlind_buttonClickedMuteSolo hP]
  split
  · exact hP s _ _ _ _
  · rfl

theorem soloBlind_tbSyncChannelSetToggleOn {α : Type} {P : Editor → α} (hP : SoloBlind P)
    (k : Nat) (s : Editor) : P (tbSyncChannelSetToggleOn k s) = P s := by
  unfold tbSyncChannelSetToggleOn
  split
  · rfl
  · rw [soloBlind_buttonClickedSyncChannel hP]
    refine (hP _ _ _ _ _).trans ?_
    apply forLoop_frame
    intro j t
    split
    · rw [soloBlind_buttonClickedSyncChannel hP]; exact hP t _ _ _ _
    · rfl

theorem blind_modBand {α : Type} {P : Editor → α} (hB : BandBlind P)
    (i : Nat) (f : BandControls → BandControls) (s : Editor) : P (s.modBand i f) = P s :=
  hB s _ _

theorem blind_msbSoloSetToggleState {α : Type} {P : Editor → α} (hS : SoloBlind P)
    (hB : BandBlind P) (i : Nat) (v : Bool) (s : Editor) :
    P (msbSoloSetToggleState i v s) = P s := by
  unfold msbSoloSetToggleState
  split
  · rfl
  · rw [soloBlind_buttonClickedMuteSolo hS, blind_modBand hB]

theorem blind_msbMuteSetToggleState {α : Type} {P : Editor → α} (hS : SoloBlind P)
    (hB : BandBlind P) (i : Nat) (v : Bool) (s : Editor) :
    P (msbMuteSetToggleState i v s) = P s := by
  unfold msbMuteSetToggleState
  split
  · rfl
  · rw [soloBlind_buttonClickedMuteSolo hS, blind_modBand hB]

theorem blind_nActiveBandsChangedBody {α : Type} {P : Editor → α} (hS : SoloBlind P)
    (hB : BandBlind P) (i : Nat) (s : Editor) : P (nActiveBandsChangedBody i s) = P s := by
  have h1 : P (nActiveBandsChangedBand i s) = P s := by
    unfold nActiveBandsChangedBand
    split
    · exact blind_modBand hB _ _ _
    · simp only [blind_modBand hB, blind_msbMuteSetToggleState hS hB,
        blind_msbSoloSetToggleState hS hB]
  unfold nActiveBandsChangedBody nActiveBandsChangedSync
  split
  · exact (hB _ _ _).trans h1
  · exact (hB _ _ _).trans h1

/-- Whatever `nActiveBandsChanged` does not write is what it was, up to the refreshed band
count. -/
theorem blind_nActiveBandsChanged {α : Type} {P : Editor → α} (hS : SoloBlind P)
    (hB : BandBlind P) (s : Editor) :
    P (nActiveBandsChanged s) = P { s with nActiveBands := s.processor.nBands } := by
  unfold nActiveBandsChanged
  rw [soloBlind_tbSyncChannelSetToggleOn hS]
  exact forLoop_frame P _ (blind_nActiveBandsChangedBody hS hB) 5 _

theorem band_nActiveBandsChangedBody (i : Nat) (s : Editor) :
    (nActiveBandsChangedBody i s).band =
      upd s.band i (bandAfterCount (decide ((i : Int) < s.nActiveBands)) (s.band i)) := by
  have h1 : (nActiveBandsChangedBand i s).band =
      upd s.band i (bandAfterCount (decide ((i : Int) < s.nActiveBands)) (s.band i)) := by
    unfold nActiveBandsChangedBand
    by_cases h : (i : Int) < s.nActiveBands
    · simp [h, bandAfterCount]
    · simp only [h, if_false, band_modBand, band_msbMuteSetToggleState,
        band_msbSoloSetToggleState, upd_same]
      funext j
      by_cases hj : j = i
      · subst hj; simp [bandAfterCount, h]
      · simp [upd, hj]
  unfold nActiveBandsChangedBody nActiveBandsChangedSync
  split <;> exact h1

theorem nActiveBands_nActiveBandsChangedBody (i : Nat) (s : Editor) :
    (nActiveBandsChangedBody i s).nActiveBands = s.nActiveBands :=
  blind_nActiveBandsChangedBody (P := fun t => t.nActiveBands) (fun _ _ _ _ _ => rfl)
    (fun _ _ _ => rfl) i s

theorem nActiveBands_forLoop_nActiveBandsChangedBody (k : Nat) (s : Editor) :
    (forLoop k nActiveBandsChangedBody s).nActiveBands = s.nActiveBands :=
  forLoop_frame (fun t => t.nActiveBands) _ nActiveBands_nActiveBandsChangedBody k s

theorem band_forLoop_nActiveBandsChangedBody (k : Nat) (s : Editor) (j : Nat) :
    (forLoop k nActiveBandsChangedBody s).band j =
      if j < k then bandAfterCount (decide ((j : Int) < s.nActiveBands)) (s.band j)
      else s.band j := by
  induction k with
  | zero => simp [forLoop]
  | succ k ih =>
    rw [forLoop, band_nActiveBandsChangedBody, nActiveBands_forLoop_nActiveBandsChangedBody]
    by_cases hj : j = k
    · subst hj; simp [ih]
    · rw [upd_of_ne _ _ hj, ih]
      have : (j < k + 1) = (j < k) := by
        apply propext; omega
      simp only [this]

/-- The controls of every band after `nActiveBandsChanged`. -/
theorem band_nActiveBandsChanged (s : Editor) (j : Nat) :
    (nActiveBandsChanged s).band j =
      if j < 5 then bandAfterCount (decide ((j : Int) < s.processor.nBands)) (s.band j)
      else s.band j := by
  unfold nActiveBandsChanged
  rw [soloBlind_tbSyncChannelSetToggleOn (P := fun t => t.band) (fun _ _ _ _ _ => rfl)]
  exact band_forLoop_nActiveBandsChangedBody 5 _ j

theorem nActiveBands_nActiveBandsChanged (s : Editor) :
    (nActiveBandsChanged s).nActiveBands = s.processor.nBands :=
  blind_nActiveBandsChanged (P := fun t => t.nActiveBands) (fun _ _ _ _ _ => rfl)
    (fun _ _ _ => rfl) s

/-! ## Band count: the active/inactive cascade -/

/-- C1: for every band count `n` with `1 ≤ n ≤ 5` reported by the processor and every prior
editor state, after `nActiveBandsChanged` every band `i < n` has its direction slider, gain
slider, solo and mute buttons enabled and visible and its visualizer active and visible, and
every band `i` with `n ≤ i < 5` has them disabled and hidden, its visualizer inactive, and
solo and mute switched off. -/
theorem nActiveBandsChanged_cascade (s : Editor) (n : Int) (h1 : 1 ≤ n) (h5 : n ≤ 5)
    (hn : s.processor.nBands = n) :
    (∀ i : Nat, (i : Int) < n →
      (nActiveBandsChanged s).bandEnabled i ∧ (nActiveBandsChanged s).bandVisible i ∧
      ((nActiveBandsChanged s).band i).pvisActive = true) ∧
    (∀ i : Nat, n ≤ (i : Int) → i < 5 →
      (nActiveBandsChanged s).bandDisabled i ∧ (nActiveBandsChanged s).bandHidden i ∧
      ((nActiveBandsChanged s).band i).pvisActive = false ∧
      ((nActiveBandsChanged s).band i).msbMuteToggleState = false ∧
      ((nActiveBandsChanged s).band i).msbSoloToggleState = false) := by
  constructor
  · intro i hi
    have h5i : i < 5 := by omega
    have hb := band_nActiveBandsChanged s i
    rw [if_pos h5i, hn] at hb
    simp [Editor.bandEnabled, Editor.bandVisible, hb, bandAfterCount, hi]
  · intro i hi h5i
    have hb := band_nActiveBandsChanged s i
    have hlt : ¬ ((i : Int) < n) := by omega
    rw [if_pos h5i, hn] at hb
    simp [Editor.bandDisabled, Editor.bandHidden, hb, bandAfterCount, hlt]

/-- C1 at a concrete state: the editor as set up by the constructor on a processor that
reports three bands. -/
theorem nActiveBandsChanged_cascade_witness :
    (∀ i : Nat, (i : Int) < 3 →
      (nActiveBandsChanged (constructed sampleProcessor (fun _ => true) (fun _ => true))).bandEnabled i ∧
      (nActiveBandsChanged (constructed sampleProcessor (fun _ => true) (fun _ => true))).bandVisible i ∧
      ((nActiveBandsChanged (constructed sampleProcessor (fun _ => true) (fun _ => true))).band i).pvisActive
        = true) ∧
    (∀ i : Nat, (3 : Int) ≤ (i : Int) → i < 5 →
      (nActiveBandsChanged (constructed sampleProcessor (fun _ => true) (fun _ => true))).bandDisabled i ∧
      (nActiveBandsChanged (constructed sampleProcessor (fun _ => true) (fun _ => true))).bandHidden i ∧
      ((nActiveBandsChanged (constructed sampleProcessor (fun _ => true) (fun _ => true))).band i).pvisActive
        = false ∧
      ((nActiveBandsChanged (constructed sampleProcessor (fun _ => true) (fun _ => true))).band i).msbMuteToggleState
        = false ∧
      ((nActiveBandsChanged (constructed sampleProcessor (fun _ => true) (fun _ => true))).band i).msbSoloToggleState
        = false) :=
  nActiveBandsChanged_cascade (constructed sampleProcessor (fun _ => true) (fun _ => true)) 3
    (by decide) (by decide) rfl

/-! ## Overlays -/

set_option maxRecDepth 8000 in
/-- C2: the overlays are not mutually exclusive in every reachable state.  After the
constructor, a click on "terminate spill" opens the disturber overlay and disables the side
area; a timer tick that finds `zeroDelayModeChanged` set (zero latency off) runs
`zeroDelayModeChange`, which enables the side area again; a click on the enabled "maximize
target" button then opens the signal overlay while the disturber overlay is still
visible. -/
theorem overlays_both_visible_reachable :
    Reachable sampleTwoOverlays ∧
    sampleTwoOverlays.alOverlayDisturberVisible = true ∧
    sampleTwoOverlays.alOverlaySignalVisible = true ∧
    sampleTwoOverlays.visibleOverlays = 2 := by
  refine ⟨?_, by decide, by decide, by decide⟩
  have h0 : Reachable sampleEditor := Reachable.construct _ _ _
  have h1 : Reachable sampleTrackingDisturber :=
    Reachable.startDisturberTracking _ h0 (by decide)
  have h2 : Reachable sampleFlagRaised := Reachable.engine _ _ h1 rfl
  have h3 : Reachable (timerCallback sampleFlagRaised) := Reachable.tick _ h2
  exact Reachable.startSignalTracking _ h3 (by decide)

theorem idle_disableOverlay (s : Editor) : (disableOverlay s).idle := by
  refine ⟨?_, ?_, ?_⟩
  · exact blind_nActiveBandsChanged (P := fun t => t.alOverlayErrorVisible)
      (fun _ _ _ _ _ => rfl) (fun _ _ _ => rfl) _
  · exact blind_nActiveBandsChanged (P := fun t => t.alOverlayDisturberVisible)
      (fun _ _ _ _ _ => rfl) (fun _ _ _ => rfl) _
  · exact blind_nActiveBandsChanged (P := fun t => t.alOverlaySignalVisible)
      (fun _ _ _ _ _ => rfl) (fun _ _ _ => rfl) _

theorem processor_disableOverlay (s : Editor) : (disableOverlay s).processor = s.processor :=
  blind_nActiveBandsChanged (P := fun t => t.processor)
    (fun _ _ _ _ _ => rfl) (fun _ _ _ => rfl) _

theorem nActiveBands_disableOverlay (s : Editor) :
    (disableOverlay s).nActiveBands = s.processor.nBands :=
  nActiveBands_nActiveBandsChanged _

theorem band_disableOverlay (s : Editor) (j : Nat) :
    (disableOverlay s).band j =
      if j < 5 then bandAfterCount (decide ((j : Int) < s.processor.nBands)) (s.band j)
      else s.band j :=
  band_nActiveBandsChanged _ j

theorem sideAreaIs_setSideAreaEnabled (v : Bool) (s : Editor) :
    (setSideAreaEnabled v s).sideAreaIs v := by
  unfold Editor.sideAreaIs setSideAreaEnabled
  refine ⟨?_, ?_, rfl, rfl, ?_, rfl, rfl, rfl, rfl⟩ <;> intro i hi <;> simp [hi]

theorem sideAreaIs_disableOverlay (s : Editor) : (disableOverlay s).sideAreaIs true :=
  sideAreaIs_setSideAreaEnabled true _

theorem mainAreaEnabled_disableOverlay (s : Editor) : (disableOverlay s).mainAreaEnabled := by
  refine ⟨?_, rfl, ?_⟩
  · exact blind_nActiveBandsChanged (P := fun t => t.deqActive)
      (fun _ _ _ _ _ => rfl) (fun _ _ _ => rfl) _
  · intro i hi hn
    rw [nActiveBands_disableOverlay] at hn
    rw [band_disableOverlay, if_pos hi]
    simp [bandAfterCount, hn]

/-- C3: from a state in which the disturber or the signal overlay is open, each of apply,
cancel and maximizeRatio hides every overlay (the workflow is idle again), leaves the main
area and the side area enabled, and makes exactly one more call on the processor:
`stopTracking (1)` for apply, `stopTracking (0)` for cancel, `stopTracking (2)` for
maximizeRatio. -/
theorem tracking_exit_closes (s : Editor)
    (h : s.alOverlayDisturberVisible = true ∨ s.alOverlaySignalVisible = true) :
    closesTracking 1 s (onAlOverlayApplyPattern s) ∧
    closesTracking 0 s (onAlOverlayCancelRecord s) ∧
    closesTracking 2 s (onAlOverlayMaxSigToDist s) := by
  have hi := idle_disableOverlay s
  have hm := mainAreaEnabled_disableOverlay s
  have hs := sideAreaIs_disableOverlay s
  have hp := processor_disableOverlay s
  rcases h with _ | _ <;>
  refine ⟨⟨hi, hm, hs, ?_⟩, ⟨hi, hm, hs, ?_⟩, ⟨hi, hm, hs, ?_⟩⟩
  all_goals
    first
    | (show (Processor.stopTracking 1 (disableOverlay s).processor).calls = _
       rw [hp]; rfl)
    | (show (Processor.stopTracking 0 (disableOverlay s).processor).calls = _
       rw [hp]; rfl)
    | (show (Processor.stopTracking 2 (disableOverlay s).processor).calls = _
       rw [hp]; rfl)

set_option maxRecDepth 8000 in
/-- C3 at a concrete state: the sample editor with the disturber overlay open. -/
theorem tracking_exit_closes_witness :
    sampleTrackingDisturber.alOverlayDisturberVisible = true ∧
    closesTracking 1 sampleTrackingDisturber (onAlOverlayApplyPattern sampleTrackingDisturber) ∧
    closesTracking 0 sampleTrackingDisturber (onAlOverlayCancelRecord sampleTrackingDisturber) ∧
    closesTracking 2 sampleTrackingDisturber (onAlOverlayMaxSigToDist sampleTrackingDisturber) :=
  ⟨by decide, tracking_exit_closes sampleTrackingDisturber (Or.inl (by decide))⟩

theorem band_forLoop_modBand (f : BandControls → BandControls) (n : Nat) (s : Editor)
    (j : Nat) :
    (forLoop n (fun i t => t.modBand i f) s).band j = if j < n then f (s.band j) else s.band j := by
  induction n with
  | zero => simp [forLoop]
  | succ k ih =>
    rw [forLoop, band_modBand]
    by_cases hj : j = k
    · subst hj; simp [ih]
    · rw [upd_of_ne _ _ hj, ih]
      have : (j < k + 1) = (j < k) := by
        apply propext; omega
      simp only [this]

theorem blind_forLoop_modBand {α : Type} {P : Editor → α} (hB : BandBlind P)
    (f : BandControls → BandControls) (n : Nat) (s : Editor) :
    P (forLoop n (fun i t => t.modBand i f) s) = P s :=
  forLoop_frame P _ (fun i t => blind_modBand hB i f t) n s

/-- Whatever `disableMainArea` does not write is what it was. -/
theorem blind_disableMainArea {α : Type} {P : Editor → α} (hB : BandBlind P)
    (hD : ∀ (s : Editor) (a z : Bool),
      P { s with deqActive := a, tbZeroDelayEnabled := z } = P s) (s : Editor) :
    P (disableMainArea s) = P s := by
  unfold disableMainArea
  refine (hD _ _ false).trans ?_
  rw [blind_forLoop_modBand hB]
  exact hD s false _

theorem band_disableMainArea (s : Editor) (j : Nat) :
    (disableMainArea s).band j =
      if j < s.nActiveBands.toNat then
        { s.band j with
          slDirEnabled := false, slBandGainEnabled := false, msbSoloEnabled := false,
          msbMuteEnabled := false, pvisActive := false }
      else s.band j :=
  band_forLoop_modBand _ _ _ j

theorem opensTracking_of (w : Bool) (s u t : Editor)
    (hcalls : u.processor.calls = s.processor.calls ++ [ProcessorCall.startTracking w])
    (he : u.alOverlayErrorVisible = false) (hd : u.alOverlayDisturberVisible = w)
    (hg : u.alOverlaySignalVisible = !w) (hn : u.nActiveBands = s.nActiveBands)
    (ht : t = setSideAreaEnabled false (disableMainArea u)) : opensTracking w s t := by
  subst ht
  refine ⟨?_, ?_, ?_, ?_, ?_, sideAreaIs_setSideAreaEnabled false _⟩
  · exact (congrArg Processor.calls (blind_disableMainArea (P := fun t => t.processor)
      (fun _ _ _ => rfl) (fun _ _ _ => rfl) u)).trans hcalls
  · exact (blind_disableMainArea (P := fun t => t.alOverlayErrorVisible)
      (fun _ _ _ => rfl) (fun _ _ _ => rfl) u).trans he
  · exact (blind_disableMainArea (P := fun t => t.alOverlayDisturberVisible)
      (fun _ _ _ => rfl) (fun _ _ _ => rfl) u).trans hd
  · exact (blind_disableMainArea (P := fun t => t.alOverlaySignalVisible)
      (fun _ _ _ => rfl) (fun _ _ _ => rfl) u).trans hg
  · intro i _ hi
    have hlt : i < u.nActiveBands.toNat := by rw [hn]; omega
    have hb : (setSideAreaEnabled false (disableMainArea u)).band i =
        (disableMainArea u).band i := rfl
    rw [hb, band_disableMainArea, if_pos hlt]
    exact ⟨rfl, rfl, rfl, rfl⟩

/-- C4: from an idle state, a click on "terminate spill" (resp. "maximize target") calls
`startTracking (true)` (resp. `false`) on the processor, makes the disturber (resp. signal)
overlay visible and no other, disables the controls of every band below the stored band
count and every side-area control, and enables the ratio button of the overlay exactly when
the processor reports the signal (resp. the disturber) as recorded. -/
theorem start_tracking_opens (s : Editor) (o : PresetOutcome) (h : s.idle) :
    opensTracking true s (buttonClicked Button.tbRecordDisturber o s) ∧
    ((buttonClicked Button.tbRecordDisturber o s).alOverlayDisturberRatioEnabled = true ↔
      s.processor.signalRecorded = true) ∧
    opensTracking false s (buttonClicked Button.tbRecordSignal o s) ∧
    ((buttonClicked Button.tbRecordSignal o s).alOverlaySignalRatioEnabled = true ↔
      s.processor.disturberRecorded = true) := by
  obtain ⟨he, hd, hg⟩ := h
  refine ⟨?_, ?_, ?_, ?_⟩
  · exact opensTracking_of true s
      { s with
        processor := s.processor.startTracking true
        alOverlayDisturberRatioEnabled := s.processor.signalRecorded
        alOverlayDisturberVisible := true } _ rfl he rfl hg rfl rfl
  · have : (buttonClicked Button.tbRecordDisturber o s).alOverlayDisturberRatioEnabled =
        s.processor.signalRecorded :=
      blind_disableMainArea (P := fun t => t.alOverlayDisturberRatioEnabled)
        (fun _ _ _ => rfl) (fun _ _ _ => rfl) _
    rw [this]
  · exact opensTracking_of false s
      { s with
        processor := s.processor.startTracking false
        alOverlaySignalRatioEnabled := s.processor.disturberRecorded
        alOverlaySignalVisible := true } _ rfl he hd rfl rfl rfl
  · have : (buttonClicked Button.tbRecordSignal o s).alOverlaySignalRatioEnabled =
        s.processor.disturberRecorded :=
      blind_disableMainArea (P := fun t => t.alOverlaySignalRatioEnabled)
        (fun _ _ _ => rfl) (fun _ _ _ => rfl) _
    rw [this]

set_option maxRecDepth 8000 in
/-- C4 at a concrete state: the sample editor, which is idle after construction. -/
theorem start_tracking_opens_witness :
    sampleEditor.idle ∧
    opensTracking true sampleEditor sampleTrackingDisturber ∧
    (sampleTrackingDisturber.alOverlayDisturberRatioEnabled = true ↔
      sampleEditor.processor.signalRecorded = true) ∧
    opensTracking false sampleEditor sampleTrackingSignal ∧
    (sampleTrackingSignal.alOverlaySignalRatioEnabled = true ↔
      sampleEditor.processor.disturberRecorded = true) :=
  ⟨by decide, start_tracking_opens sampleEditor PresetOutcome.dismissed (by decide)⟩

/-- C5: when the editor is destroyed while the disturber or the signal overlay is visible,
the destructor does what `onAlOverlayCancelRecord` does, and the processor receives
exactly one more call, `stopTracking (0)`. -/
theorem destructor_cancels_tracking (s : Editor)
    (h : s.alOverlayDisturberVisible = true ∨ s.alOverlaySignalVisible = true) :
    destructor s = onAlOverlayCancelRecord s ∧
    (destructor s).processor.calls = s.processor.calls ++ [ProcessorCall.stopTracking 0] := by
  have hcancel : (onAlOverlayCancelRecord s).processor.calls =
      s.processor.calls ++ [ProcessorCall.stopTracking 0] := by
    show (Processor.stopTracking 0 (disableOverlay s).processor).calls = _
    rw [processor_disableOverlay]; rfl
  have hhidden : (onAlOverlayCancelRecord s).alOverlaySignalVisible = false :=
    (idle_disableOverlay s).2.2
  have hd : destructor s = onAlOverlayCancelRecord s := by
    unfold destructor
    by_cases hv : s.alOverlayDisturberVisible = true
    · simp [hv, hhidden]
    · have hg : s.alOverlaySignalVisible = true := h.resolve_left hv
      simp [hv, hg]
  exact ⟨hd, hd ▸ hcancel⟩

set_option maxRecDepth 8000 in
/-- C5 at a concrete state: the sample editor destroyed with the signal overlay open. -/
theorem destructor_cancels_tracking_witness :
    sampleTrackingSignal.alOverlaySignalVisible = true ∧
    destructor sampleTrackingSignal = onAlOverlayCancelRecord sampleTrackingSignal ∧
    (destructor sampleTrackingSignal).processor.calls =
      sampleTrackingSignal.processor.calls ++ [ProcessorCall.stopTracking 0] :=
  ⟨by decide, destructor_cancels_tracking sampleTrackingSignal (Or.inr (by decide))⟩

/-! ## Zero latency mode -/

theorem band_zeroDelayModeChangeBody (nActive : Int) (i : Nat) (s : Editor) :
    (zeroDelayModeChangeBody nActive i s).band =
      upd s.band i (bandAfterZeroDelay (decide ((i : Int) < nActive)) (s.band i)) := by
  unfold zeroDelayModeChangeBody
  by_cases h : (i : Int) < nActive
  · simp [h, bandAfterZeroDelay]
  · simp only [h, if_false, band_modBand, band_msbMuteSetToggleState,
      band_msbSoloSetToggleState, upd_same]
    funext j
    by_cases hj : j = i
    · subst hj; simp [bandAfterZeroDelay, h]
    · simp [upd, hj]

theorem band_forLoop_zeroDelayModeChangeBody (nActive : Int) (k : Nat) (s : Editor) (j : Nat) :
    (forLoop k (zeroDelayModeChangeBody nActive) s).band j =
      if j < k then bandAfterZeroDelay (decide ((j : Int) < nActive)) (s.band j)
      else s.band j := by
  induction k with
  | zero => simp [forLoop]
  | succ k ih =>
    rw [forLoop, band_zeroDelayModeChangeBody]
    by_cases hj : j = k
    · subst hj; simp [ih]
    · rw [upd_of_ne _ _ hj, ih]
      have : (j < k + 1) = (j < k) := by
        apply propext; omega
      simp only [this]

/-- The controls of every band after `zeroDelayModeChange`. -/
theorem band_zeroDelayModeChange (s : Editor) (j : Nat) :
    (zeroDelayModeChange s).band j =
      if j < 5 then
        bandAfterZeroDelay
          (decide ((j : Int) < if s.processor.zeroDelayMode then 1 else s.cbSetNrBandsSelectedId))
          (s.band j)
      else s.band j :=
  band_forLoop_zeroDelayModeChangeBody _ 5 _ j

theorem blind_zeroDelayModeChangeBody {α : Type} {P : Editor → α} (hS : SoloBlind P)
    (hB : BandBlind P) (nActive : Int) (i : Nat) (s : Editor) :
    P (zeroDelayModeChangeBody nActive i s) = P s := by
  unfold zeroDelayModeChangeBody
  split
  · exact blind_modBand hB _ _ _
  · simp only [blind_modBand hB, blind_msbMuteSetToggleState hS hB,
      blind_msbSoloSetToggleState hS hB]

/-- The stored band count after `zeroDelayModeChange` is the selected id of `cbSetNrBands`. -/
theorem nActiveBands_zeroDelayModeChange (s : Editor) :
    (zeroDelayModeChange s).nActiveBands = s.cbSetNrBandsSelectedId :=
  forLoop_frame (fun t : Editor => t.nActiveBands) _
    (blind_zeroDelayModeChangeBody (P := fun t => t.nActiveBands) (fun _ _ _ _ _ => rfl)
      (fun _ _ _ => rfl) _) 5 _

set_option maxRecDepth 8000 in
/-- C6: `zeroDelayModeChange` with zero latency on, then with zero latency off, does not
bring back the bands a band count of three had enabled.  In the state `nActiveBandsChanged`
leaves for three bands, bands 0, 1, 2 are enabled; after the two calls they are all
disabled, because the second call takes the band count from `cbSetNrBands`, whose selected
id is 0. -/
theorem zeroDelay_round_trip_disables_bands :
    (∀ i : Nat, i < 3 → sampleThreeBands.bandEnabled i) ∧
    sampleThreeBands.cbSetNrBandsSelectedId = 0 ∧
    (∀ i : Nat, i < 3 →
      (zeroDelayModeChange
        ((zeroDelayModeChange (sampleThreeBands.withZeroDelayMode true)).withZeroDelayMode
          false)).bandDisabled i) := by
  refine ⟨by decide, by decide, by decide⟩

set_option maxRecDepth 8000 in
/-- C7: `zeroDelayModeChange` does not keep the stored band count.  In the state
`nActiveBandsChanged` leaves for three bands the count is 3; after `zeroDelayModeChange` it
is 0, the selected id of `cbSetNrBands`, whether zero latency is on or off. -/
theorem zeroDelayModeChange_overwrites_band_count :
    sampleThreeBands.nActiveBands = 3 ∧
    (zeroDelayModeChange (sampleThreeBands.withZeroDelayMode true)).nActiveBands = 0 ∧
    (zeroDelayModeChange (sampleThreeBands.withZeroDelayMode false)).nActiveBands = 0 := by
  refine ⟨by decide, by decide, by decide⟩

/-- C8: whenever the processor reports zero latency mode as active, after
`zeroDelayModeChange` the controls of band 0 are enabled and the controls of bands 1 to 4
are disabled, whatever the stored band count and the prior state. -/
theorem zeroDelay_active_single_band (s : Editor) (h : s.processor.zeroDelayMode = true) :
    (zeroDelayModeChange s).bandEnabled 0 ∧
    ∀ i : Nat, 1 ≤ i → i < 5 → (zeroDelayModeChange s).bandDisabled i := by
  constructor
  · have hb := band_zeroDelayModeChange s 0
    simp [h] at hb
    simp [Editor.bandEnabled, hb, bandAfterZeroDelay]
  · intro i h1 h5
    have hb := band_zeroDelayModeChange s i
    have hlt : ¬ ((i : Int) < 1) := by omega
    simp [h, h5, hlt] at hb
    simp [Editor.bandDisabled, hb, bandAfterZeroDelay]

set_option maxRecDepth 8000 in
/-- C8 at a concrete state: three bands enabled, then zero latency switched on. -/
theorem zeroDelay_active_single_band_witness :
    (sampleThreeBands.withZeroDelayMode true).processor.zeroDelayMode = true ∧
    (zeroDelayModeChange (sampleThreeBands.withZeroDelayMode true)).bandEnabled 0 ∧
    ∀ i : Nat, 1 ≤ i → i < 5 →
      (zeroDelayModeChange (sampleThreeBands.withZeroDelayMode true)).bandDisabled i :=
  ⟨by decide, zeroDelay_active_single_band (sampleThreeBands.withZeroDelayMode true) (by decide)⟩

/-! ## Layout -/

theorem forLoop_snoc {α : Type} (f : Nat → α) (k : Nat) (l : List α) :
    forLoop k (fun i acc => acc ++ [f i]) l = l ++ (List.range k).map f := by
  induction k with
  | zero => simp [forLoop]
  | succ k ih => rw [forLoop, ih, List.range_succ, List.map_append, List.append_assoc]; rfl

/-- The vector `bandLimit` built by the first loop holds the boundary sequence. -/
theorem bandLimit_getD (n : Nat) (hn : 1 ≤ n) (x : Nat → Int) (W off : ℚ) (j : Nat)
    (hj : j ≤ n) :
    (([0] ++ (List.range (n - 1)).map (fun i => (x i : ℚ) - off)) ++ [W]).getD j 0
      = specBoundary n x W off j := by
  unfold specBoundary
  rw [List.getD_eq_getElem?_getD]
  by_cases h0 : j = 0
  · subst h0; simp
  · by_cases hlt : j < n
    · simp only [h0, hlt, if_true, if_false]
      obtain ⟨k, rfl⟩ : ∃ k, j = k + 1 := ⟨j - 1, by omega⟩
      have hk : k < n - 1 := by omega
      simp [List.getElem?_append, hk]
    · have : j = n := by omega
      subst this
      simp only [h0, hlt, if_false]
      obtain ⟨k, rfl⟩ : ∃ k, j = k + 1 := ⟨j - 1, by omega⟩
      simp [List.getElem?_append]

theorem getBandLimitWidthVector_eq (n : Nat) (hn : 1 ≤ n) (x : Nat → Int) (W off : ℚ) :
    getBandLimitWidthVector (n : Int) x W off =
      W :: (List.range n).map
        (fun i => specBoundary n x W off (i + 1) - specBoundary n x W off i) := by
  unfold getBandLimitWidthVector
  have hm : ((n : Int) - 1).toNat = n - 1 := by omega
  simp only [hm, forLoop_snoc]
  have hlen :
      ([(0 : ℚ)] ++ List.map (fun i => (x i : ℚ) - off) (List.range (n - 1)) ++ [W]).length - 1
        = n := by
    simp; omega
  rw [hlen]
  show [W] ++ _ = [W] ++ _
  congr 1
  apply List.map_congr_left
  intro i hi
  have hi' : i < n := List.mem_range.mp hi
  rw [bandLimit_getD n hn x W off (i + 1) (by omega), Nat.add_sub_cancel,
    bandLimit_getD n hn x W off i (by omega)]

/-- C9: for every stored band count `n` with `1 ≤ n ≤ 5`, every non-zero total width
`W = deqWidth - 42` and every crossover configuration, when the visualizers of the `n`
bands are active the layout creates the slots of bands `0 .. n-1`, in order, and their
width fractions sum to exactly 1 over the rationals: the band widths sum to `W`. -/
theorem resized_fractions_sum_to_one (s : Editor) (x : Nat → Int) (deqWidth : Int) (n : Int)
    (hn : s.nActiveBands = n) (h1 : 1 ≤ n) (h5 : n ≤ 5) (hW : deqWidth ≠ 42)
    (hact : ∀ i : Nat, (i : Int) < n → (s.band i).pvisActive = true) :
    ∃ slots, resizedBandSlots s x deqWidth = some slots ∧
      slots.map Prod.fst = List.range n.toNat ∧
      (slots.map Prod.snd).sum = 1 ∧
      (slots.map fun p => p.2 * ((deqWidth : ℚ) - 42)).sum = (deqWidth : ℚ) - 42 := by
  have hW' : (deqWidth : ℚ) - 42 ≠ 0 := by
    intro h
    apply hW
    have : (deqWidth : ℚ) = 42 := by linarith
    exact_mod_cast this
  have h0 := hact 0
  have h1' := hact 1
  have h2 := hact 2
  have h3 := hact 3
  have h4 := hact 4
  obtain rfl | rfl | rfl | rfl | rfl : n = 1 ∨ n = 2 ∨ n = 3 ∨ n = 4 ∨ n = 5 := by omega
  all_goals
    simp at h0 h1' h2 h3 h4
    simp [resizedBandSlots, getBandLimitWidthVector, forLoop, hn, *, List.range_succ]
  all_goals try constructor
  all_goals first | ring1 | (field_simp; done) | (field_simp; ring1)

set_option maxRecDepth 8000 in
/-- C9 at the concrete layout of the specification: three bands, total width 900 (equaliser
width 942), crossovers at 329 and 629, so that the boundaries are 0, 300, 600, 900: the
fractions are 1/3 each. -/
theorem resized_fractions_sum_to_one_witness :
    resizedBandSlots sampleThreeBands (fun i => 329 + 300 * i) 942 =
      some [(0, 1 / 3), (1, 1 / 3), (2, 1 / 3)] ∧
    ∃ slots, resizedBandSlots sampleThreeBands (fun i => 329 + 300 * i) 942 = some slots ∧
      slots.map Prod.fst = List.range (3 : Int).toNat ∧
      (slots.map Prod.snd).sum = 1 ∧
      (slots.map fun p => p.2 * (((942 : Int) : ℚ) - 42)).sum = ((942 : Int) : ℚ) - 42 := by
  have hn : sampleThreeBands.nActiveBands = 3 := by decide
  have hp : ∀ i : Nat, (i : Int) < 3 → (sampleThreeBands.band i).pvisActive = true := by
    intro i hi
    have : i < 3 := by omega
    interval_cases i <;> decide
  refine ⟨?_, resized_fractions_sum_to_one sampleThreeBands (fun i => 329 + 300 * i) 942 3 hn
    (by decide) (by decide) (by decide) hp⟩
  have h0 := hp 0 (by decide)
  have h1 := hp 1 (by decide)
  have h2 := hp 2 (by decide)
  simp only [resizedBandSlots, hn]
  norm_num [getBandLimitWidthVector, forLoop, h0, h1, h2]

/-- C10: for every band count `n ≥ 1`, total width `W`, offset and crossover positions `x`
(ordered or not), `getBandLimitWidthVector` returns `n + 1` entries, entry 0 is `W`, and
entry `i + 1` is the width of band `i`, `b[i+1] - b[i]` for the boundary sequence `b` of
the specification; where the boundaries do not increase, the width is not positive (no
clamping). -/
theorem getBandLimitWidthVector_widths (n : Nat) (hn : 1 ≤ n) (x : Nat → Int) (W off : ℚ) :
    (getBandLimitWidthVector (n : Int) x W off).length = n + 1 ∧
    (getBandLimitWidthVector (n : Int) x W off)[0]? = some W ∧
    (∀ i : Nat, i < n → (getBandLimitWidthVector (n : Int) x W off)[i + 1]? =
      some (specBoundary n x W off (i + 1) - specBoundary n x W off i)) ∧
    (∀ i : Nat, i < n → specBoundary n x W off (i + 1) < specBoundary n x W off i →
      ∃ w, (getBandLimitWidthVector (n : Int) x W off)[i + 1]? = some w ∧ w < 0) := by
  rw [getBandLimitWidthVector_eq n hn]
  have hw : ∀ i : Nat, i < n →
      (W :: (List.range n).map
        (fun i => specBoundary n x W off (i + 1) - specBoundary n x W off i))[i + 1]? =
      some (specBoundary n x W off (i + 1) - specBoundary n x W off i) := by
    intro i hi
    simp [List.getElem?_cons_succ, List.getElem?_map, List.getElem?_range hi]
  refine ⟨by simp, by simp, hw, ?_⟩
  intro i hi hle
  exact ⟨_, hw i hi, by linarith⟩

/-- C10 at a concrete input: two bands, total width 900, offset 29, and the crossover
dragged to 1029, past the right edge: the vector is `[900, 1000, -100]`. -/
theorem getBandLimitWidthVector_widths_witness :
    getBandLimitWidthVector ((2 : Nat) : Int) (fun _ => 1029) 900 29 = [900, 1000, -100] ∧
    (getBandLimitWidthVector ((2 : Nat) : Int) (fun _ => 1029) 900 29).length = 2 + 1 ∧
    (getBandLimitWidthVector ((2 : Nat) : Int) (fun _ => 1029) 900 29)[0]? = some 900 ∧
    (∀ i : Nat, i < 2 →
      (getBandLimitWidthVector ((2 : Nat) : Int) (fun _ => 1029) 900 29)[i + 1]? =
        some (specBoundary 2 (fun _ => 1029) 900 29 (i + 1) -
          specBoundary 2 (fun _ => 1029) 900 29 i)) ∧
    (∀ i : Nat, i < 2 →
      specBoundary 2 (fun _ => 1029) 900 29 (i + 1) < specBoundary 2 (fun _ => 1029) 900 29 i →
      ∃ w, (getBandLimitWidthVector ((2 : Nat) : Int) (fun _ => 1029) 900 29)[i + 1]? = some w ∧
        w < 0) :=
  ⟨by norm_num [getBandLimitWidthVector, forLoop],
    getBandLimitWidthVector_widths 2 (by decide) (fun _ => 1029) 900 29⟩

/-! ## The endless slider -/

theorem emitted_compareAndNotify (t : EndlessSlider) :
    t.compareAndNotify.emitted = t.emitted ++ specEmission t.lastMoved t.currentMoved := by
  unfold EndlessSlider.compareAndNotify specEmission
  split
  · rfl
  · split
    · rfl
    · simp

theorem mouseDrag_of_dragged (d : Int) (t : EndlessSlider) :
    (t.mouseDrag ⟨true, d⟩).emitted = t.emitted ++ specEmission t.lastMoved d ∧
    (t.mouseDrag ⟨true, d⟩).lastMoved = d := by
  constructor
  · exact emitted_compareAndNotify { t with currentMoved := d }
  · simp only [EndlessSlider.mouseDrag, EndlessSlider.compareAndNotify, if_true]
    split
    · rfl
    · split <;> rfl


@[simp] theorem currentMoved_compareAndNotify (t : EndlessSlider) :
    t.compareAndNotify.currentMoved = t.currentMoved := by
  unfold EndlessSlider.compareAndNotify
  split
  · rfl
  · split <;> rfl

@[simp] theorem counter_compareAndNotify (t : EndlessSlider) :
    t.compareAndNotify.mouseWheelMovedCounter = t.mouseWheelMovedCounter := by
  unfold EndlessSlider.compareAndNotify
  split
  · rfl
  · split <;> rfl

/-- C11, as stated, fails: a `mouseDrag` call whose event does not report
`mouseWasDraggedSinceMouseDown` is ignored.  On a fresh control, with drag distance 2 > 0,
no callback fires and `lastMoved` stays 0. -/
theorem mouseDrag_unregistered_counterexample :
    (2 : Int) > EndlessSlider.new.lastMoved ∧
    (EndlessSlider.new.mouseDrag ⟨false, 2⟩).emitted = EndlessSlider.new.emitted ∧
    (EndlessSlider.new.mouseDrag ⟨false, 2⟩).lastMoved ≠ 2 := by
  decide

/-- C11, amended: for every `mouseDrag` call whose event reports
`mouseWasDraggedSinceMouseDown`, with drag distance `d` and prior `lastMoved = L`: if
`d > L` exactly one Decrement is emitted and no Increment, if `d < L` exactly one Increment
and no Decrement, if `d = L` nothing, and `lastMoved = d` afterwards; a call whose event
does not report it changes nothing. -/
theorem mouseDrag_emits (e : MouseEvent) (t : EndlessSlider) :
    (e.mouseWasDraggedSinceMouseDown = true →
      (e.distanceFromDragStartY > t.lastMoved →
        (t.mouseDrag e).emitted = t.emitted ++ [TrimEvent.decrement]) ∧
      (e.distanceFromDragStartY < t.lastMoved →
        (t.mouseDrag e).emitted = t.emitted ++ [TrimEvent.increment]) ∧
      (e.distanceFromDragStartY = t.lastMoved → (t.mouseDrag e).emitted = t.emitted) ∧
      (t.mouseDrag e).lastMoved = e.distanceFromDragStartY) ∧
    (e.mouseWasDraggedSinceMouseDown = false → t.mouseDrag e = t) := by
  obtain ⟨w, d⟩ := e
  constructor
  · intro hw
    simp only at hw
    subst hw
    obtain ⟨hem, hl⟩ := mouseDrag_of_dragged d t
    refine ⟨?_, ?_, ?_, hl⟩
    · intro h
      rw [hem, specEmission, if_pos h]
    · intro h
      dsimp only at h
      have h' : ¬ d > t.lastMoved := by omega
      rw [hem, specEmission, if_neg h', if_pos h]
    · intro h
      dsimp only at h
      have h1 : ¬ d > t.lastMoved := by omega
      have h2 : ¬ d < t.lastMoved := by omega
      rw [hem, specEmission, if_neg h1, if_neg h2, List.append_nil]
  · intro hw
    simp only at hw
    subst hw
    rfl

/-- C11 at a concrete input: a registered drag of 5 on a fresh control emits one
Decrement. -/
theorem mouseDrag_emits_witness :
    (((MouseEvent.mk true 5).mouseWasDraggedSinceMouseDown = true →
      ((MouseEvent.mk true 5).distanceFromDragStartY > EndlessSlider.new.lastMoved →
        (EndlessSlider.new.mouseDrag ⟨true, 5⟩).emitted =
          EndlessSlider.new.emitted ++ [TrimEvent.decrement]) ∧
      ((MouseEvent.mk true 5).distanceFromDragStartY < EndlessSlider.new.lastMoved →
        (EndlessSlider.new.mouseDrag ⟨true, 5⟩).emitted =
          EndlessSlider.new.emitted ++ [TrimEvent.increment]) ∧
      ((MouseEvent.mk true 5).distanceFromDragStartY = EndlessSlider.new.lastMoved →
        (EndlessSlider.new.mouseDrag ⟨true, 5⟩).emitted = EndlessSlider.new.emitted) ∧
      (EndlessSlider.new.mouseDrag ⟨true, 5⟩).lastMoved =
        (MouseEvent.mk true 5).distanceFromDragStartY) ∧
    ((MouseEvent.mk true 5).mouseWasDraggedSinceMouseDown = false →
      EndlessSlider.new.mouseDrag ⟨true, 5⟩ = EndlessSlider.new)) ∧
    (MouseEvent.mk true 5).mouseWasDraggedSinceMouseDown = true ∧
    (EndlessSlider.new.mouseDrag ⟨true, 5⟩).emitted = [TrimEvent.decrement] :=
  ⟨mouseDrag_emits ⟨true, 5⟩ EndlessSlider.new, by decide, by decide⟩

theorem feed_append (es fs : List MouseEvent) (t : EndlessSlider) :
    t.feed (es ++ fs) = (t.feed es).feed fs := by
  simp [EndlessSlider.feed, List.foldl_append]

theorem feed_filter (es : List MouseEvent) (t : EndlessSlider) :
    t.feed es = t.feed (es.filter fun e => e.mouseWasDraggedSinceMouseDown) := by
  induction es generalizing t with
  | nil => rfl
  | cons e es ih =>
    by_cases h : e.mouseWasDraggedSinceMouseDown = true
    · rw [List.filter_cons_of_pos h]
      exact ih _
    · rw [List.filter_cons_of_neg h]
      have : t.mouseDrag e = t := by
        unfold EndlessSlider.mouseDrag
        rw [if_neg h]
      show (t.mouseDrag e).feed es = _
      rw [this]
      exact ih _

theorem lastMoved_feed_registered (ds : List Int) (d : Int) (t : EndlessSlider) :
    (t.feed (registered (ds ++ [d]))).lastMoved = d := by
  unfold registered
  rw [List.map_append, feed_append]
  exact (mouseDrag_of_dragged d _).2

theorem feed_registered_step (ds : List Int) (j : Nat) (h1 : 1 ≤ j) (hj : j < ds.length) :
    (EndlessSlider.new.feed (registered (ds.take (j + 1)))).emitted =
      (EndlessSlider.new.feed (registered (ds.take j))).emitted ++
        specEmission (ds.getD (j - 1) 0) (ds.getD j 0) := by
  obtain ⟨k, rfl⟩ : ∃ k, j = k + 1 := ⟨j - 1, by omega⟩
  have hk : k < ds.length := by omega
  have e1 : ds.take (k + 1 + 1) = ds.take (k + 1) ++ [ds.getD (k + 1) 0] := by
    rw [List.take_succ, List.getD_eq_getElem?_getD, List.getElem?_eq_getElem hj]
    rfl
  have e0 : ds.take (k + 1) = ds.take k ++ [ds.getD k 0] := by
    rw [List.take_succ, List.getD_eq_getElem?_getD, List.getElem?_eq_getElem hk]
    rfl
  have hlast :
      (EndlessSlider.new.feed (registered (ds.take (k + 1)))).lastMoved = ds.getD k 0 := by
    rw [e0]; exact lastMoved_feed_registered _ _ _
  rw [e1]
  conv_lhs => unfold registered
  rw [List.map_append, feed_append]
  have := (mouseDrag_of_dragged (ds.getD (k + 1) 0)
    (EndlessSlider.new.feed (registered (ds.take (k + 1))))).1
  rw [hlast] at this
  simpa [registered, EndlessSlider.feed] using this

/-- C12, amended: for every sequence of drag displacements `d0, ..., dk` fed in order to a
freshly constructed control by `mouseDrag` calls that each report
`mouseWasDraggedSinceMouseDown`, the callbacks emitted for sample `dj` (`j ≥ 1`) are
Decrement if `dj > d(j-1)`, Increment if `dj < d(j-1)` and nothing if they are equal,
whatever the earlier samples; calls that do not report it are skipped: a run of calls
emits what its reporting calls alone emit. -/
theorem feed_registered_emits (ds : List Int) (j : Nat) (h1 : 1 ≤ j) (hj : j < ds.length) :
    (EndlessSlider.new.feed (registered (ds.take (j + 1)))).emitted =
      (EndlessSlider.new.feed (registered (ds.take j))).emitted ++
        specEmission (ds.getD (j - 1) 0) (ds.getD j 0) ∧
    ∀ (es : List MouseEvent) (t : EndlessSlider),
      t.feed es = t.feed (es.filter fun e => e.mouseWasDraggedSinceMouseDown) :=
  ⟨feed_registered_step ds j h1 hj, feed_filter⟩

/-- C12 at the displacements 0, 5, 5, 2 of the specification: the samples after the first
emit Decrement, nothing, Increment. -/
theorem feed_registered_emits_witness :
    ((EndlessSlider.new.feed (registered ([0, 5, 5, 2].take (3 + 1)))).emitted =
      (EndlessSlider.new.feed (registered ([0, 5, 5, 2].take 3))).emitted ++
        specEmission (([0, 5, 5, 2] : List Int).getD (3 - 1) 0)
          (([0, 5, 5, 2] : List Int).getD 3 0) ∧
    ∀ (es : List MouseEvent) (t : EndlessSlider),
      t.feed es = t.feed (es.filter fun e => e.mouseWasDraggedSinceMouseDown)) ∧
    specEmission 0 5 = [TrimEvent.decrement] ∧ specEmission 5 5 = [] ∧
    specEmission 5 2 = [TrimEvent.increment] ∧
    (EndlessSlider.new.feed (registered [0, 5, 5, 2])).emitted =
      [TrimEvent.decrement, TrimEvent.increment] :=
  ⟨feed_registered_emits [0, 5, 5, 2] 3 (by decide) (by decide), by decide, by decide,
    by decide, by decide⟩

/-- C12, as stated, fails: with samples 0, 3, 2 where the middle call does not report
`mouseWasDraggedSinceMouseDown`, the third sample is compared with 0, not with 3, and
emits Decrement, where the rule applied to the previous sample gives Increment. -/
theorem feed_unregistered_counterexample :
    (EndlessSlider.new.feed [⟨true, 0⟩, ⟨false, 3⟩, ⟨true, 2⟩]).emitted =
      (EndlessSlider.new.feed [⟨true, 0⟩, ⟨false, 3⟩]).emitted ++ [TrimEvent.decrement] ∧
    specEmission 3 2 = [TrimEvent.increment] := by
  decide

/-! ## The wheel of the endless slider -/

theorem log_two_eq (q : ℚ) (e : Int) (h1 : (2 : ℚ) ^ e ≤ q) (h2 : q < (2 : ℚ) ^ (e + 1)) :
    Int.log 2 q = e := by
  have hq : 0 < q := lt_of_lt_of_le (zpow_pos (by norm_num) e) h1
  have a : e ≤ Int.log 2 q := (Int.zpow_le_iff_le_log (by norm_num) hq).1 (by exact_mod_cast h1)
  have b : Int.log 2 q < e + 1 := (Int.lt_zpow_iff_log_lt (by norm_num) hq).1 (by exact_mod_cast h2)
  omega

theorem roundHalfEven_eq (x : ℚ) (m : Int) (h : |x - m| < 1 / 2) : roundHalfEven x = m := by
  rw [abs_lt] at h
  obtain ⟨h1, h2⟩ := h
  unfold roundHalfEven
  by_cases hm : (m : ℚ) ≤ x
  · have hf : ⌊x⌋ = m := by
      rw [Int.floor_eq_iff]
      constructor
      · exact hm
      · linarith
    rw [hf, if_pos (by linarith)]
  · have hf : ⌊x⌋ = m - 1 := by
      rw [Int.floor_eq_iff]
      push_cast
      constructor <;> linarith
    rw [hf]
    push_cast
    rw [if_neg (by linarith), if_pos (by linarith)]
    ring

theorem roundFloat_eq (q : ℚ) (e m : Int) (he : -126 ≤ e) (h1 : (2 : ℚ) ^ e ≤ |q|)
    (h2 : |q| < (2 : ℚ) ^ (e + 1)) (hm : |q / 2 ^ (e - 23) - m| < 1 / 2) :
    roundFloat q = (m : ℚ) * 2 ^ (e - 23) := by
  unfold roundFloat
  rw [log_two_eq _ e h1 h2, max_eq_left he, roundHalfEven_eq _ m hm]

theorem truncToInt_eq (x : ℚ) (n : Int) (h0 : 0 ≤ x) (h1 : (n : ℚ) ≤ x) (h2 : x < n + 1) :
    truncToInt x = n := by
  rw [truncToInt, if_pos h0, Int.floor_eq_iff]
  exact ⟨h1, h2⟩

theorem abs_lt_of_truncToInt_range (x : ℚ) (h1 : -2 ^ 31 ≤ truncToInt x)
    (h2 : truncToInt x < 2 ^ 31) : |x| < 2 ^ 128 := by
  unfold truncToInt at h1 h2
  by_cases h0 : 0 ≤ x
  · rw [if_pos h0] at h2
    have : x < ((2 ^ 31 : Int) : ℚ) := Int.floor_lt.1 h2
    rw [abs_of_nonneg h0]
    push_cast at this
    linarith [show (2 : ℚ) ^ 31 < 2 ^ 128 by norm_num]
  · rw [if_neg h0] at h1
    have h3 : (-2 ^ 31 - 1 : Int) < ⌈x⌉ := by omega
    have : ((-2 ^ 31 - 1 : Int) : ℚ) < x := Int.lt_ceil.1 h3
    rw [abs_of_neg (not_le.1 h0)]
    push_cast at this
    linarith [show (2 : ℚ) ^ 31 + 1 < 2 ^ 128 by norm_num]

theorem emitted_wheel (t : EndlessSlider) (n c : Int) :
    ({ t with mouseWheelMovedCounter := n, currentMoved := c } :
      EndlessSlider).compareAndNotify.emitted = t.emitted ++ specEmission t.lastMoved c :=
  emitted_compareAndNotify _

theorem roundFloat_of_pos (q : ℚ) (e m : Int) (he : -126 ≤ e) (h1 : (2 : ℚ) ^ e ≤ q)
    (h2 : q < (2 : ℚ) ^ (e + 1)) (hlo : (m : ℚ) - 1 / 2 < q / 2 ^ (e - 23))
    (hhi : q / 2 ^ (e - 23) < (m : ℚ) + 1 / 2) : roundFloat q = (m : ℚ) * 2 ^ (e - 23) := by
  have hq : 0 < q := lt_of_lt_of_le (zpow_pos (by norm_num) e) h1
  apply roundFloat_eq q e m he
  · rwa [abs_of_pos hq]
  · rwa [abs_of_pos hq]
  · rw [abs_lt]
    constructor <;> linarith

/-- What `mouseWheelMove` returns when its product is finite and converts to `int`. -/
theorem mouseWheelMove_of (deltaY : ℚ) (height : Int) (t : EndlessSlider) (p q : ℚ) (c : Int)
    (hcount : t.mouseWheelMovedCounter + 1 < 2 ^ 31)
    (hp : floatMul deltaY (intToFloat height) = some p)
    (hq : floatMul p (intToFloat (t.mouseWheelMovedCounter + 1)) = some q)
    (hc : floatToInt q = some c) :
    ∃ u : EndlessSlider, t.mouseWheelMove deltaY height = some u ∧
      u.mouseWheelMovedCounter = t.mouseWheelMovedCounter + 1 ∧ u.currentMoved = c ∧
      u.emitted = t.emitted ++ specEmission t.lastMoved c ∧ u.lastMoved = c := by
  unfold EndlessSlider.mouseWheelMove
  rw [if_pos hcount]
  simp only [hp, hq, hc, Option.bind, Option.map]
  refine ⟨_, rfl, ?_, ?_, ?_, ?_⟩
  · simp
  · simp
  · exact emitted_wheel t _ c
  · simp

theorem roundFloat_one : roundFloat 1 = 1 := by
  rw [roundFloat_of_pos 1 0 8388608 (by norm_num) (by norm_num) (by norm_num) (by norm_num)
    (by norm_num)]
  norm_num

theorem roundFloat_hundred : roundFloat 100 = 100 := by
  rw [roundFloat_of_pos 100 6 13107200 (by norm_num) (by norm_num) (by norm_num) (by norm_num)
    (by norm_num)]
  norm_num

theorem roundFloat_twelve_and_half : roundFloat (25 / 2) = 25 / 2 := by
  rw [roundFloat_of_pos (25 / 2) 3 13107200 (by norm_num) (by norm_num) (by norm_num)
    (by norm_num) (by norm_num)]
  norm_num

theorem roundFloat_twenty_nine : roundFloat 29 = 29 := by
  rw [roundFloat_of_pos 29 4 15204352 (by norm_num) (by norm_num) (by norm_num) (by norm_num)
    (by norm_num)]
  norm_num

/-- The `float` product `0.29f * 100.0f` is `29.0f`: the exact product, just below 29, is
rounded up. -/
theorem roundFloat_float029_hundred : roundFloat (float029 * 100) = 29 := by
  rw [roundFloat_of_pos (float029 * 100) 4 15204352 (by norm_num) (by norm_num [float029])
    (by norm_num [float029]) (by norm_num [float029]) (by norm_num [float029])]
  norm_num

/-- C20, amended: every `mouseWheelMove` call with the counter below the largest `int`, a
finite first product and a final product that truncates into the range of `int` returns,
increases `mouseWheelMovedCounter` by one, sets `currentMoved` to the product
`deltaY * height * counter` (with the increased counter) computed in `float`, each
multiplication rounded to the nearest `float`, and truncated toward zero to an integer,
emits by the comparison of that integer with the prior `lastMoved` (Decrement if greater,
Increment if smaller, nothing if equal), and then sets `lastMoved` to `currentMoved`. -/
theorem mouseWheelMove_effect (deltaY : ℚ) (height : Int) (t : EndlessSlider)
    (hcount : t.mouseWheelMovedCounter + 1 < 2 ^ 31)
    (hfinite : |roundFloat (deltaY * roundFloat (height : ℚ))| < 2 ^ 128)
    (hlow : -2 ^ 31 ≤ truncToInt (wheelProduct deltaY height (t.mouseWheelMovedCounter + 1)))
    (hhigh : truncToInt (wheelProduct deltaY height (t.mouseWheelMovedCounter + 1)) < 2 ^ 31) :
    ∃ u : EndlessSlider, t.mouseWheelMove deltaY height = some u ∧
      u.mouseWheelMovedCounter = t.mouseWheelMovedCounter + 1 ∧
      u.currentMoved =
        truncToInt (wheelProduct deltaY height (t.mouseWheelMovedCounter + 1)) ∧
      u.emitted = t.emitted ++ specEmission t.lastMoved u.currentMoved ∧
      u.lastMoved = u.currentMoved := by
  obtain ⟨u, hu, h1, h2, h3, h4⟩ := mouseWheelMove_of deltaY height t
    (roundFloat (deltaY * roundFloat (height : ℚ)))
    (wheelProduct deltaY height (t.mouseWheelMovedCounter + 1))
    (truncToInt (wheelProduct deltaY height (t.mouseWheelMovedCounter + 1))) hcount
    (by unfold floatMul intToFloat; rw [if_pos hfinite])
    (by
      unfold floatMul intToFloat
      rw [if_pos]
      · rfl
      · exact abs_lt_of_truncToInt_range _ hlow hhigh)
    (by unfold floatToInt; rw [if_pos ⟨hlow, hhigh⟩])
  exact ⟨u, hu, h1, h2, by rw [h2]; exact h3, by rw [h2]; exact h4⟩

theorem wheelProduct_eighth : wheelProduct (1 / 8) 100 (0 + 1) = 25 / 2 := by
  unfold wheelProduct
  norm_num [roundFloat_one, roundFloat_hundred, roundFloat_twelve_and_half]

theorem wheelProduct_float029 : wheelProduct float029 100 (0 + 1) = 29 := by
  unfold wheelProduct
  norm_num [roundFloat_one, roundFloat_hundred, roundFloat_float029_hundred,
    roundFloat_twenty_nine]

theorem floatMul_eq (a b r : ℚ) (hr : roundFloat (a * b) = r) (h0 : 0 ≤ r)
    (hfin : r < 2 ^ 128) : floatMul a b = some r := by
  unfold floatMul
  rw [hr, abs_of_nonneg h0, if_pos hfin]

theorem floatToInt_eq (x : ℚ) (n : Int) (h0 : 0 ≤ x) (h1 : (n : ℚ) ≤ x) (h2 : x < n + 1)
    (hlow : -2 ^ 31 ≤ n) (hhigh : n < 2 ^ 31) : floatToInt x = some n := by
  unfold floatToInt
  rw [truncToInt_eq x n h0 h1 h2, if_pos ⟨hlow, hhigh⟩]

theorem intToFloat_one : intToFloat 1 = 1 := by
  unfold intToFloat
  norm_num [roundFloat_one]

theorem intToFloat_hundred : intToFloat 100 = 100 := by
  unfold intToFloat
  norm_num [roundFloat_hundred]

/-- C20, as stated, fails: with `deltaY = 1/8` and height 100 on a fresh control the product
is 12.5, exact in `float`, and `currentMoved` becomes 12. -/
theorem mouseWheelMove_truncates :
    (EndlessSlider.new.mouseWheelMove (1 / 8) 100).map (fun u => u.currentMoved) = some 12 ∧
    ((12 : Int) : ℚ) ≠
      (1 / 8 : ℚ) * 100 * ((EndlessSlider.new.mouseWheelMovedCounter + 1 : Int) : ℚ) := by
  have hc : EndlessSlider.new.mouseWheelMovedCounter + 1 = 1 := rfl
  obtain ⟨u, hu, _, h2, _, _⟩ := mouseWheelMove_of (1 / 8) 100 EndlessSlider.new (25 / 2)
    (25 / 2) 12 (by decide)
    (floatMul_eq _ _ _ (by rw [intToFloat_hundred]; norm_num [roundFloat_twelve_and_half])
      (by norm_num) (by norm_num))
    (floatMul_eq _ _ _ (by rw [hc, intToFloat_one]; norm_num [roundFloat_twelve_and_half])
      (by norm_num) (by norm_num))
    (floatToInt_eq _ 12 (by norm_num) (by norm_num) (by norm_num) (by norm_num) (by norm_num))
  refine ⟨by rw [hu]; simp [h2], ?_⟩
  norm_num [EndlessSlider.new]

set_option maxRecDepth 8000 in
/-- C20 amended, at a concrete input: `deltaY = 0.29f` and height 100 on a fresh control.
The exact product is just below 29 and truncates to 28; the `float` product is `29.0f`, so
`currentMoved` becomes 29 and Decrement is emitted against `lastMoved = 0`. -/
theorem mouseWheelMove_effect_witness :
    truncToInt (float029 * 100 * ((EndlessSlider.new.mouseWheelMovedCounter + 1 : Int) : ℚ)) =
      28 ∧
    truncToInt (wheelProduct float029 100 (EndlessSlider.new.mouseWheelMovedCounter + 1)) =
      29 ∧
    ∃ u : EndlessSlider, EndlessSlider.new.mouseWheelMove float029 100 = some u ∧
      u.mouseWheelMovedCounter = EndlessSlider.new.mouseWheelMovedCounter + 1 ∧
      u.currentMoved =
        truncToInt (wheelProduct float029 100 (EndlessSlider.new.mouseWheelMovedCounter + 1)) ∧
      u.emitted =
        EndlessSlider.new.emitted ++ specEmission EndlessSlider.new.lastMoved u.currentMoved ∧
      u.lastMoved = u.currentMoved := by
  have hc : EndlessSlider.new.mouseWheelMovedCounter + 1 = 0 + 1 := rfl
  have ht : truncToInt (wheelProduct float029 100
      (EndlessSlider.new.mouseWheelMovedCounter + 1)) = 29 := by
    rw [hc, wheelProduct_float029]
    exact truncToInt_eq _ 29 (by norm_num) (by norm_num) (by norm_num)
  refine ⟨?_, ht, mouseWheelMove_effect float029 100 EndlessSlider.new (by decide) ?_ ?_ ?_⟩
  · rw [hc]
    exact truncToInt_eq _ 28 (by norm_num [float029]) (by norm_num [float029])
      (by norm_num [float029])
  · have h : roundFloat (float029 * roundFloat ((100 : Int) : ℚ)) = 29 := by
      norm_num [roundFloat_hundred, roundFloat_float029_hundred]
    rw [h]
    norm_num
  · rw [ht]; norm_num
  · rw [ht]; norm_num

/-- The `float` computation `0.01f * 60.0f * 5.0f`, the fifth wheel event at height 60,
truncates to 2, where the decimal product is 3. -/
theorem wheelProduct_float001 : truncToInt (wheelProduct float001 60 5) = 2 := by
  have h60 : roundFloat 60 = 60 := by
    rw [roundFloat_of_pos 60 5 15728640 (by norm_num) (by norm_num) (by norm_num)
      (by norm_num) (by norm_num)]
    norm_num
  have h5 : roundFloat 5 = 5 := by
    rw [roundFloat_of_pos 5 2 10485760 (by norm_num) (by norm_num) (by norm_num)
      (by norm_num) (by norm_num)]
    norm_num
  have hp : roundFloat (float001 * 60) = 10066329 / 16777216 := by
    rw [roundFloat_of_pos (float001 * 60) (-1) 10066329 (by norm_num)
      (by norm_num [float001]) (by norm_num [float001]) (by norm_num [float001])
      (by norm_num [float001])]
    norm_num
  have hq : roundFloat (50331645 / 16777216) = 12582911 / 4194304 := by
    rw [roundFloat_of_pos (50331645 / 16777216) 1 12582911 (by norm_num)
      (by norm_num) (by norm_num) (by norm_num) (by norm_num)]
    norm_num
  have hw : wheelProduct float001 60 5 = 12582911 / 4194304 := by
    unfold wheelProduct
    norm_num [h60, h5, hp, hq]
  rw [hw]
  exact truncToInt_eq _ 2 (by norm_num) (by norm_num) (by norm_num)

/-- The rational `float029` is the `float` nearest to 29/100. -/
theorem roundFloat_float029 : roundFloat (29 / 100) = float029 := by
  rw [roundFloat_of_pos (29 / 100) (-2) 9730785 (by norm_num) (by norm_num) (by norm_num)
    (by norm_num) (by norm_num)]
  norm_num [float029]

/-- The rational `float001` is the `float` nearest to 1/100. -/
theorem roundFloat_float001 : roundFloat (1 / 100) = float001 := by
  rw [roundFloat_of_pos (1 / 100) (-7) 10737418 (by norm_num) (by norm_num) (by norm_num)
    (by norm_num) (by norm_num)]
  norm_num [float001]

/-! ## Trim of the direction sliders -/

theorem forLoop_upd_pointwise {α : Type} (g : α → α) (k : Nat) (f : Nat → α) (j : Nat) :
    forLoop k (fun i h => upd h i (g (h i))) f j = if j < k then g (f j) else f j := by
  induction k with
  | zero => simp [forLoop]
  | succ k ih =>
    rw [forLoop]
    by_cases hj : j = k
    · subst hj; simp [ih]
    · rw [upd_of_ne _ _ hj, ih]
      have : (j < k + 1) = (j < k) := by
        apply propext; omega
      simp only [this]

@[simp] theorem minimum_setValue (sl : SliderState) (v : ℚ) :
    (sl.setValue v).minimum = sl.minimum := rfl

@[simp] theorem maximum_setValue (sl : SliderState) (v : ℚ) :
    (sl.setValue v).maximum = sl.maximum := rfl

@[simp] theorem interval_setValue (sl : SliderState) (v : ℚ) :
    (sl.setValue v).interval = sl.interval := rfl

theorem value_setValue_in_range (sl : SliderState) (v : ℚ) (hint : sl.interval ≤ 0)
    (hlo : sl.minimum ≤ v) (hhi : v ≤ sl.maximum) : (sl.setValue v).value = v := by
  unfold SliderState.setValue
  have h0 : ¬ (0 < sl.interval) := not_lt.mpr hint
  simp only [h0, if_false]
  by_cases h1 : v ≤ sl.minimum ∨ sl.maximum ≤ sl.minimum
  · rw [if_pos h1]
    rcases h1 with h | h <;> linarith
  · rw [if_neg h1]
    by_cases h2 : sl.maximum ≤ v
    · rw [if_pos h2]; linarith
    · rw [if_neg h2]

theorem incrementTrim_apply (nBands : Int) (step : ℚ) (slDir : Nat → SliderState) (j : Nat) :
    incrementTrim nBands step slDir j =
      if (j : Int) < nBands then (slDir j).setValue ((slDir j).value + step) else slDir j := by
  unfold incrementTrim
  refine (forLoop_upd_pointwise (fun sl : SliderState => sl.setValue (sl.value + step))
    _ _ _).trans ?_
  by_cases h : (j : Int) < nBands
  · rw [if_pos h, if_pos (by omega)]
  · rw [if_neg h, if_neg (by omega)]

theorem incrementTrim_iterate (nBands : Int) (step : ℚ) (hstep : 0 ≤ step) (k : Nat)
    (slDir : Nat → SliderState) (j : Nat) (hj : (j : Int) < nBands)
    (hint : (slDir j).interval ≤ 0) (hlo : (slDir j).minimum ≤ (slDir j).value)
    (hhi : (slDir j).value + k * step ≤ (slDir j).maximum) :
    ((incrementTrim nBands step)^[k] slDir j).value = (slDir j).value + k * step ∧
    ((incrementTrim nBands step)^[k] slDir j).minimum = (slDir j).minimum ∧
    ((incrementTrim nBands step)^[k] slDir j).maximum = (slDir j).maximum ∧
    ((incrementTrim nBands step)^[k] slDir j).interval = (slDir j).interval := by
  induction k with
  | zero => simp
  | succ k ih =>
    have hk : (slDir j).value + k * step ≤ (slDir j).maximum := by
      push_cast at hhi
      nlinarith
    obtain ⟨hv, hmin, hmax, hi⟩ := ih hk
    rw [Function.iterate_succ_apply', incrementTrim_apply, if_pos hj]
    refine ⟨?_, by simp [hmin], by simp [hmax], by simp [hi]⟩
    have hk0 : 0 ≤ (k : ℚ) * step := mul_nonneg (Nat.cast_nonneg k) hstep
    rw [value_setValue_in_range _ _ (by rw [hi]; exact hint), hv]
    · push_cast; ring
    · rw [hmin, hv]; linarith
    · rw [hmax, hv]; push_cast at hhi; linarith

theorem incrementTrim_iterate_outside (nBands : Int) (step : ℚ) (k : Nat)
    (slDir : Nat → SliderState) (j : Nat) (hj : nBands ≤ (j : Int)) :
    (incrementTrim nBands step)^[k] slDir j = slDir j := by
  induction k with
  | zero => simp
  | succ k ih =>
    rw [Function.iterate_succ_apply', incrementTrim_apply, if_neg (by omega), ih]

/-- C13, amended: for every `k ≥ 0` and stored band count `n` in `[1,5]`, `k` consecutive
Increment events of the trim control (step 0.012725) change the direction value of every
band in `[0,n)` by exactly `k * 0.012725` over the rationals, provided its slider is
continuous and the value plus `k * 0.012725` stays within the slider range; the sliders of
the bands in `[n,5)` are unchanged. -/
theorem trim_increments_within_range (s : Editor) (t : EndlessSlider) (n : Int) (k : Nat)
    (slDir : Nat → SliderState) (h1 : 1 ≤ n) (h5 : n ≤ 5) (hn : s.nActiveBands = n)
    (hstep : t.step = 12725 / 1000000)
    (hint : ∀ i : Nat, (i : Int) < n → (slDir i).interval ≤ 0)
    (hrange : ∀ i : Nat, (i : Int) < n → (slDir i).minimum ≤ (slDir i).value ∧
      (slDir i).value + k * (12725 / 1000000) ≤ (slDir i).maximum) :
    (∀ i : Nat, (i : Int) < n →
      ((trimSliderIncremented s t)^[k] slDir i).value =
        (slDir i).value + k * (12725 / 1000000)) ∧
    (∀ i : Nat, n ≤ (i : Int) → i < 5 → (trimSliderIncremented s t)^[k] slDir i = slDir i) := by
  have hfun : trimSliderIncremented s t = incrementTrim n (12725 / 1000000) := by
    funext sl
    rw [trimSliderIncremented, hn, hstep]
  rw [hfun]
  have _ := h1
  have _ := h5
  constructor
  · intro i hi
    exact (incrementTrim_iterate n _ (by norm_num) k slDir i hi (hint i hi) (hrange i hi).1
      (hrange i hi).2).1
  · intro i hi _
    exact incrementTrim_iterate_outside n _ k slDir i hi

set_option maxRecDepth 8000 in
/-- C13, as stated, fails: `setValue` keeps the value inside the slider range.  With three
bands and a direction slider at 0.99 in the range from 0 to 1, one Increment leaves the
value at 1, not at 1.002725. -/
theorem trim_increment_clamped :
    sampleThreeBands.nActiveBands = 3 ∧ EndlessSlider.new.step = 12725 / 1000000 ∧
    ((trimSliderIncremented sampleThreeBands EndlessSlider.new)^[1] sampleSlDir 0).value = 1 ∧
    (sampleSlDir 0).value + (1 : Nat) * (12725 / 1000000) ≠ 1 := by
  have hn : sampleThreeBands.nActiveBands = 3 := by decide
  refine ⟨hn, rfl, ?_, by norm_num [sampleSlDir]⟩
  rw [Function.iterate_one, trimSliderIncremented, hn, incrementTrim_apply, if_pos (by decide)]
  norm_num [SliderState.setValue, sampleSlDir, EndlessSlider.new]

set_option maxRecDepth 8000 in
/-- C13 at a concrete input: three bands, sliders at 0 in the range from 0 to 1, two
Increments. -/
theorem trim_increments_within_range_witness :
    sampleThreeBands.nActiveBands = 3 ∧
    (∀ i : Nat, (i : Int) < 3 →
      ((trimSliderIncremented sampleThreeBands EndlessSlider.new)^[2] sampleSlDirLow i).value =
        (sampleSlDirLow i).value + (2 : Nat) * (12725 / 1000000)) ∧
    (∀ i : Nat, (3 : Int) ≤ (i : Int) → i < 5 →
      (trimSliderIncremented sampleThreeBands EndlessSlider.new)^[2] sampleSlDirLow i =
        sampleSlDirLow i) :=
  ⟨by decide,
    trim_increments_within_range sampleThreeBands EndlessSlider.new 3 2 sampleSlDirLow
      (by decide) (by decide) (by decide) rfl (fun _ _ => le_refl _)
      (fun _ _ => by norm_num [sampleSlDirLow])⟩

/-! ## Timer -/

@[simp] theorem processor_nActiveBandsChanged (s : Editor) :
    (nActiveBandsChanged s).processor = s.processor :=
  blind_nActiveBandsChanged (P := fun t => t.processor)
    (fun _ _ _ _ _ => rfl) (fun _ _ _ => rfl) s

@[simp] theorem processor_zeroDelayModeChange (s : Editor) :
    (zeroDelayModeChange s).processor = s.processor :=
  forLoop_frame (fun t : Editor => t.processor) _
    (blind_zeroDelayModeChangeBody (P := fun t => t.processor) (fun _ _ _ _ _ => rfl)
      (fun _ _ _ => rfl) _) 5 _

theorem flags_buttonClickedEq (h : Reconcile) (k : Nat) (t : Editor) :
    h.flag (buttonClickedEq k t).processor = h.flag t.processor := by
  cases h <;> rfl

theorem flags_tbEqSetToggleOn (h : Reconcile) (k : Nat) (s : Editor) :
    h.flag (tbEqSetToggleOn k s).processor = h.flag s.processor := by
  unfold tbEqSetToggleOn
  by_cases hk : s.tbEqToggleState k = true
  · rw [if_pos hk]
  · rw [if_neg hk]
    simp only []
    rw [flags_buttonClickedEq]
    refine forLoop_frame (fun t : Editor => h.flag t.processor) _ ?_ 3 s
    intro j t
    dsimp only
    split
    · rw [flags_buttonClickedEq]
    · rfl

theorem flags_setEqMode (h : Reconcile) (s : Editor) :
    h.flag (setEqMode s).processor = h.flag s.processor :=
  flags_tbEqSetToggleOn h _ s

theorem timerCallbackTraced_fst (s : Editor) : (timerCallbackTraced s).1 = timerCallback s := by
  unfold timerCallbackTraced timerCallback
  simp only []
  repeat' split
  all_goals simp_all

@[simp] theorem repaintDEQ_setEqMode (s : Editor) :
    (setEqMode s).processor.repaintDEQ = s.processor.repaintDEQ :=
  flags_setEqMode Reconcile.repaint s

@[simp] theorem didNRActiveBandsChange_setEqMode (s : Editor) :
    (setEqMode s).processor.didNRActiveBandsChange = s.processor.didNRActiveBandsChange :=
  flags_setEqMode Reconcile.bandCount s

@[simp] theorem zeroDelayModeChanged_setEqMode (s : Editor) :
    (setEqMode s).processor.zeroDelayModeChanged = s.processor.zeroDelayModeChanged :=
  flags_setEqMode Reconcile.zeroDelay s

@[simp] theorem ffDfEqChanged_setEqMode (s : Editor) :
    (setEqMode s).processor.ffDfEqChanged = s.processor.ffDfEqChanged :=
  flags_setEqMode Reconcile.eqMode s

/-- C14: for every combination of the four flags before a poll, after `timerCallback` all
four flags are false, and each of the four handlers (equaliser repaint,
`nActiveBandsChanged`, `zeroDelayModeChange`, `setEqMode`) has been called exactly once if
its flag was set before the poll and not at all otherwise. -/
theorem timerCallback_test_and_clear (s : Editor) :
    (∀ h : Reconcile, h.flag (timerCallback s).processor = false) ∧
    (timerCallbackTraced s).1 = timerCallback s ∧
    (∀ h : Reconcile,
      (timerCallbackTraced s).2.count h = if h.flag s.processor = true then 1 else 0) := by
  refine ⟨?_, timerCallbackTraced_fst s, ?_⟩
  · intro h
    rcases h1 : s.processor.repaintDEQ with _ | _ <;>
    rcases h2 : s.processor.didNRActiveBandsChange with _ | _ <;>
    rcases h3 : s.processor.zeroDelayModeChanged with _ | _ <;>
    rcases h4 : s.processor.ffDfEqChanged with _ | _ <;>
    cases h <;>
    simp [timerCallback, Reconcile.flag, h1, h2, h3, h4]
  · intro h
    rcases h1 : s.processor.repaintDEQ with _ | _ <;>
    rcases h2 : s.processor.didNRActiveBandsChange with _ | _ <;>
    rcases h3 : s.processor.zeroDelayModeChanged with _ | _ <;>
    rcases h4 : s.processor.ffDfEqChanged with _ | _ <;>
    cases h <;>
    simp [timerCallbackTraced, Reconcile.flag, h1, h2, h3, h4]

set_option maxRecDepth 8000 in
/-- C15: a poll that finds `didNRActiveBandsChange` set does not always leave the stored band
count equal to the count the processor reports.  When `zeroDelayModeChanged` is set too,
`zeroDelayModeChange` runs after `nActiveBandsChanged` and overwrites `nActiveBands` with
the selected id of `cbSetNrBands`: the processor reports 3 bands, the stored count is 0. -/
theorem timerCallback_band_count_overwritten :
    sampleBothFlags.processor.didNRActiveBandsChange = true ∧
    (timerCallback sampleBothFlags).processor.nBands = 3 ∧
    (timerCallback sampleBothFlags).nActiveBands = 0 := by
  refine ⟨by decide, by decide, by decide⟩

/-! ## Band counts out of range, and the frame of `disableMainArea` -/

set_option maxRecDepth 8000 in
/-- C16, as stated, fails: `nActiveBandsChanged` stores the reported band count as it is.
With seven bands reported the stored count is 7, with none it is 0. -/
theorem nActiveBandsChanged_stores_seven :
    sampleSevenBands.processor.nBands = 7 ∧
    (nActiveBandsChanged sampleSevenBands).nActiveBands = 7 ∧
    sampleNoBands.processor.nBands = 0 ∧
    (nActiveBandsChanged sampleNoBands).nActiveBands = 0 := by
  refine ⟨by decide, by decide, by decide, by decide⟩

/-- C16, amended: for every band count `n` outside `[1,5]` reported by the processor,
`nActiveBandsChanged` returns normally and stores `n` itself, without clamping; for
`n < 1` all five bands are disabled and hidden with solo and mute off, for `n > 5` all
five bands are enabled and visible. -/
theorem nActiveBandsChanged_out_of_range (s : Editor) (n : Int) (hn : s.processor.nBands = n)
    (hout : n < 1 ∨ 5 < n) :
    (nActiveBandsChanged s).nActiveBands = n ∧
    (n < 1 → ∀ i : Nat, i < 5 →
      (nActiveBandsChanged s).bandDisabled i ∧ (nActiveBandsChanged s).bandHidden i ∧
      ((nActiveBandsChanged s).band i).msbSoloToggleState = false ∧
      ((nActiveBandsChanged s).band i).msbMuteToggleState = false) ∧
    (5 < n → ∀ i : Nat, i < 5 →
      (nActiveBandsChanged s).bandEnabled i ∧ (nActiveBandsChanged s).bandVisible i) := by
  have hcount : (nActiveBandsChanged s).nActiveBands = n := by
    rw [nActiveBands_nActiveBandsChanged, hn]
  rcases hout with hlo | hhi
  · refine ⟨hcount, ?_, fun h => absurd h (by omega)⟩
    intro _ i hi
    have hb := band_nActiveBandsChanged s i
    have hlt : ¬ ((i : Int) < n) := by omega
    rw [if_pos hi, hn] at hb
    simp [Editor.bandDisabled, Editor.bandHidden, hb, bandAfterCount, hlt]
  · refine ⟨hcount, fun h => absurd h (by omega), ?_⟩
    intro _ i hi
    have hb := band_nActiveBandsChanged s i
    have hlt : (i : Int) < n := by omega
    rw [if_pos hi, hn] at hb
    simp [Editor.bandEnabled, Editor.bandVisible, hb, bandAfterCount, hlt]

set_option maxRecDepth 8000 in
/-- C16 at a concrete input: seven bands reported. -/
theorem nActiveBandsChanged_out_of_range_witness :
    sampleSevenBands.processor.nBands = 7 ∧
    (nActiveBandsChanged sampleSevenBands).nActiveBands = 7 ∧
    ((7 : Int) < 1 → ∀ i : Nat, i < 5 →
      (nActiveBandsChanged sampleSevenBands).bandDisabled i ∧
      (nActiveBandsChanged sampleSevenBands).bandHidden i ∧
      ((nActiveBandsChanged sampleSevenBands).band i).msbSoloToggleState = false ∧
      ((nActiveBandsChanged sampleSevenBands).band i).msbMuteToggleState = false) ∧
    ((5 : Int) < 7 → ∀ i : Nat, i < 5 →
      (nActiveBandsChanged sampleSevenBands).bandEnabled i ∧
      (nActiveBandsChanged sampleSevenBands).bandVisible i) :=
  ⟨by decide, nActiveBandsChanged_out_of_range sampleSevenBands 7 (by decide)
    (Or.inr (by decide))⟩

/-- C17: for every state whose stored band count `n` is in `[1,5]`, `disableMainArea` disables
the controls of every band in `[0,n)`, keeps the stored band count, keeps the solo and
mute state of each of the five bands, and leaves the bands in `[n,5)` as they were. -/
theorem disableMainArea_frame (s : Editor) (n : Int) (h1 : 1 ≤ n) (h5 : n ≤ 5)
    (hn : s.nActiveBands = n) :
    (∀ i : Nat, (i : Int) < n → (disableMainArea s).bandDisabled i) ∧
    (disableMainArea s).nActiveBands = n ∧
    (∀ i : Nat, i < 5 →
      ((disableMainArea s).band i).msbSoloToggleState = (s.band i).msbSoloToggleState ∧
      ((disableMainArea s).band i).msbMuteToggleState = (s.band i).msbMuteToggleState) ∧
    (∀ i : Nat, n ≤ (i : Int) → i < 5 → (disableMainArea s).band i = s.band i) := by
  have hcount : (disableMainArea s).nActiveBands = s.nActiveBands :=
    blind_disableMainArea (P := fun t => t.nActiveBands) (fun _ _ _ => rfl)
      (fun _ _ _ => rfl) s
  refine ⟨?_, hcount.trans hn, ?_, ?_⟩
  · intro i hi
    have hlt : i < s.nActiveBands.toNat := by omega
    have hb := band_disableMainArea s i
    rw [if_pos hlt] at hb
    simp [Editor.bandDisabled, hb]
  · intro i _
    have hb := band_disableMainArea s i
    by_cases hlt : i < s.nActiveBands.toNat
    · rw [if_pos hlt] at hb
      simp [hb]
    · rw [if_neg hlt] at hb
      simp [hb]
  · intro i hi _
    have hlt : ¬ i < s.nActiveBands.toNat := by omega
    have hb := band_disableMainArea s i
    rw [if_neg hlt] at hb
    exact hb

set_option maxRecDepth 8000 in
/-- C17 at a concrete state: three bands, band 1 soloed, band 4 muted. -/
theorem disableMainArea_frame_witness :
    sampleSoloMute.nActiveBands = 3 ∧
    (∀ i : Nat, (i : Int) < 3 → (disableMainArea sampleSoloMute).bandDisabled i) ∧
    (disableMainArea sampleSoloMute).nActiveBands = 3 ∧
    (∀ i : Nat, i < 5 →
      ((disableMainArea sampleSoloMute).band i).msbSoloToggleState =
        (sampleSoloMute.band i).msbSoloToggleState ∧
      ((disableMainArea sampleSoloMute).band i).msbMuteToggleState =
        (sampleSoloMute.band i).msbMuteToggleState) ∧
    (∀ i : Nat, (3 : Int) ≤ (i : Int) → i < 5 →
      (disableMainArea sampleSoloMute).band i = sampleSoloMute.band i) :=
  ⟨by decide, disableMainArea_frame sampleSoloMute 3 (by decide) (by decide) (by decide)⟩

/-! ## Re-enabling and the solo aggregate -/

set_option maxRecDepth 8000 in
/-- C18, as stated, fails: the re-enable step is `nActiveBandsChanged`, which reads the band
count again and switches off solo and mute above it.  With the disturber overlay open, a
stored count of 3, band 2 soloed and the processor reporting 2 bands, closing the overlay
leaves the stored count at 2 and band 2 not soloed. -/
theorem disableOverlay_rereads_band_count :
    sampleStaleCount.alOverlayDisturberVisible = true ∧
    sampleStaleCount.nActiveBands = 3 ∧ (disableOverlay sampleStaleCount).nActiveBands = 2 ∧
    (sampleStaleCount.band 2).msbSoloToggleState = true ∧
    ((disableOverlay sampleStaleCount).band 2).msbSoloToggleState = false := by
  refine ⟨by decide, by decide, by decide, by decide, by decide⟩

/-- C18, amended: for every state, the re-enable step run when an overlay closes sets the
stored band count to the count the processor reports, enables the controls of every band
below that count and keeps their solo and mute state, and leaves solo and mute switched
off on the bands from that count up to band 4. -/
theorem disableOverlay_enables_bands (s : Editor) :
    (disableOverlay s).nActiveBands = s.processor.nBands ∧
    (∀ i : Nat, i < 5 → (i : Int) < (disableOverlay s).nActiveBands →
      (disableOverlay s).bandEnabled i ∧
      ((disableOverlay s).band i).msbSoloToggleState = (s.band i).msbSoloToggleState ∧
      ((disableOverlay s).band i).msbMuteToggleState = (s.band i).msbMuteToggleState) ∧
    (∀ i : Nat, i < 5 → (disableOverlay s).nActiveBands ≤ (i : Int) →
      ((disableOverlay s).band i).msbSoloToggleState = false ∧
      ((disableOverlay s).band i).msbMuteToggleState = false) := by
  have hcount := nActiveBands_disableOverlay s
  refine ⟨hcount, ?_, ?_⟩
  · intro i hi hlt
    rw [hcount] at hlt
    have hb := band_disableOverlay s i
    rw [if_pos hi] at hb
    simp [Editor.bandEnabled, hb, bandAfterCount, hlt]
  · intro i hi hge
    rw [hcount] at hge
    have hlt : ¬ ((i : Int) < s.processor.nBands) := by omega
    have hb := band_disableOverlay s i
    rw [if_pos hi] at hb
    simp [hb, bandAfterCount, hlt]

set_option maxRecDepth 8000 in
/-- C18 at a concrete state: disturber overlay open, stored count 3, band 2 soloed,
processor reporting 2 bands. -/
theorem disableOverlay_enables_bands_witness :
    (disableOverlay sampleStaleCount).nActiveBands = sampleStaleCount.processor.nBands ∧
    (∀ i : Nat, i < 5 → (i : Int) < (disableOverlay sampleStaleCount).nActiveBands →
      (disableOverlay sampleStaleCount).bandEnabled i ∧
      ((disableOverlay sampleStaleCount).band i).msbSoloToggleState =
        (sampleStaleCount.band i).msbSoloToggleState ∧
      ((disableOverlay sampleStaleCount).band i).msbMuteToggleState =
        (sampleStaleCount.band i).msbMuteToggleState) ∧
    (∀ i : Nat, i < 5 → (disableOverlay sampleStaleCount).nActiveBands ≤ (i : Int) →
      ((disableOverlay sampleStaleCount).band i).msbSoloToggleState = false ∧
      ((disableOverlay sampleStaleCount).band i).msbMuteToggleState = false) :=
  disableOverlay_enables_bands sampleStaleCount

theorem getSoloActive_iff (s : Editor) :
    getSoloActive s = true ↔ ∃ i : Nat, i < 5 ∧ (s.band i).msbSoloToggleState = true := by
  unfold getSoloActive maxNumberBands
  rw [List.any_eq_true]
  constructor
  · rintro ⟨i, hi, h⟩
    exact ⟨i, List.mem_range.mp hi, h⟩
  · rintro ⟨i, hi, h⟩
    exact ⟨i, List.mem_range.mpr hi, h⟩

theorem highlights_buttonClickedMuteSolo (s : Editor) :
    (buttonClickedMuteSolo s).deqSoloActive = getSoloActive (buttonClickedMuteSolo s) ∧
    ∀ j : Nat, j < 5 →
      (buttonClickedMuteSolo s).pvisSoloActive j = getSoloActive (buttonClickedMuteSolo s) := by
  have hg : getSoloActive (buttonClickedMuteSolo s) = getSoloActive s := rfl
  rw [hg]
  refine ⟨rfl, ?_⟩
  intro j hj
  simp [buttonClickedMuteSolo, maxNumberBands, hj]

/-- C19: `getSoloActive` is true exactly when one of the five bands has its solo button on,
and after every click on a solo or a mute button the solo highlight of the equaliser and of
each of the five visualizers equals `getSoloActive`. -/
theorem solo_aggregate_propagates (s : Editor) (i : Nat) :
    (getSoloActive s = true ↔ ∃ j : Nat, j < 5 ∧ (s.band j).msbSoloToggleState = true) ∧
    ((toggleSolo i s).deqSoloActive = getSoloActive (toggleSolo i s) ∧
      ∀ j : Nat, j < 5 → (toggleSolo i s).pvisSoloActive j = getSoloActive (toggleSolo i s)) ∧
    ((toggleMute i s).deqSoloActive = getSoloActive (toggleMute i s) ∧
      ∀ j : Nat, j < 5 → (toggleMute i s).pvisSoloActive j = getSoloActive (toggleMute i s)) :=
  ⟨getSoloActive_iff s, highlights_buttonClickedMuteSolo _, highlights_buttonClickedMuteSolo _⟩

set_option maxRecDepth 8000 in
/-- C19 at a concrete state: three bands, none soloed; band 1 is soloed, then unsoloed. -/
theorem solo_aggregate_propagates_witness :
    ((getSoloActive sampleThreeBands = true ↔
        ∃ j : Nat, j < 5 ∧ (sampleThreeBands.band j).msbSoloToggleState = true) ∧
      ((toggleSolo 1 sampleThreeBands).deqSoloActive = getSoloActive (toggleSolo 1 sampleThreeBands) ∧
        ∀ j : Nat, j < 5 →
          (toggleSolo 1 sampleThreeBands).pvisSoloActive j =
            getSoloActive (toggleSolo 1 sampleThreeBands)) ∧
      ((toggleMute 1 sampleThreeBands).deqSoloActive = getSoloActive (toggleMute 1 sampleThreeBands) ∧
        ∀ j : Nat, j < 5 →
          (toggleMute 1 sampleThreeBands).pvisSoloActive j =
            getSoloActive (toggleMute 1 sampleThreeBands))) ∧
    getSoloActive sampleThreeBands = false ∧
    getSoloActive (toggleSolo 1 sampleThreeBands) = true ∧
    (toggleSolo 1 sampleThreeBands).deqSoloActive = true ∧
    getSoloActive (toggleSolo 1 (toggleSolo 1 sampleThreeBands)) = false :=
  ⟨solo_aggregate_propagates sampleThreeBands 1, by decide, by decide, by decide, by decide⟩

/-! ## Trim control and zero latency mode -/

theorem decrementTrim_apply (nBands : Int) (step : ℚ) (slDir : Nat → SliderState) (j : Nat) :
    decrementTrim nBands step slDir j =
      if (j : Int) < nBands then (slDir j).setValue ((slDir j).value - step) else slDir j := by
  unfold decrementTrim
  refine (forLoop_upd_pointwise (fun sl : SliderState => sl.setValue (sl.value - step))
    _ _ _).trans ?_
  by_cases h : (j : Int) < nBands
  · rw [if_pos h, if_pos (by omega)]
  · rw [if_neg h, if_neg (by omega)]

set_option maxRecDepth 8000 in
/-- C21, counterexample: on an editor whose processor has zero latency mode on and reports three
bands, after a tick that found `didNRActiveBandsChange` set, the stored band count is 3, and
one Increment event from the trim control moves the direction value of band 1 from 0 to the
step 0.012725: the callback takes the stored band count and does not look at zero latency
mode. -/
theorem trim_changes_band_one_in_zero_delay :
    sampleZeroDelayPolled.processor.zeroDelayMode = true ∧
    sampleZeroDelayPolled.nActiveBands = 3 ∧
    (sampleSlDirLow 1).value = 0 ∧
    (trimSliderIncremented sampleZeroDelayPolled EndlessSlider.new sampleSlDirLow 1).value =
      12725 / 1000000 := by
  have hn : sampleZeroDelayPolled.nActiveBands = 3 := by decide
  refine ⟨by decide, hn, rfl, ?_⟩
  rw [trimSliderIncremented, hn, incrementTrim_apply, if_pos (by decide)]
  norm_num [SliderState.setValue, sampleSlDirLow, EndlessSlider.new]

/-- C21, amended: for every stored band count `n` in `[1,5]`, whether zero latency mode is
active or not, each Increment event from the trim control changes the direction value of
every band in `[0,n)` by `+step` and each Decrement event by `-step` (continuous sliders, the
new value within the slider range); the direction sliders of the bands in `[n,5)` are
unchanged. -/
theorem trim_event_on_stored_count (s : Editor) (t : EndlessSlider)
    (slDir : Nat → SliderState) (n : Int) (h1 : 1 ≤ n) (h5 : n ≤ 5) (hn : s.nActiveBands = n)
    (hint : ∀ i : Nat, (i : Int) < n → (slDir i).interval ≤ 0)
    (hrange : ∀ i : Nat, (i : Int) < n → (slDir i).minimum ≤ (slDir i).value - t.step ∧
      (slDir i).value - t.step ≤ (slDir i).maximum ∧
      (slDir i).minimum ≤ (slDir i).value + t.step ∧
      (slDir i).value + t.step ≤ (slDir i).maximum) :
    (∀ i : Nat, (i : Int) < n →
      (trimSliderIncremented s t slDir i).value = (slDir i).value + t.step ∧
      (trimSliderDecremented s t slDir i).value = (slDir i).value - t.step) ∧
    (∀ i : Nat, n ≤ (i : Int) → i < 5 →
      trimSliderIncremented s t slDir i = slDir i ∧
      trimSliderDecremented s t slDir i = slDir i) := by
  have _ : 1 ≤ s.nActiveBands ∧ s.nActiveBands ≤ 5 := by omega
  constructor
  · intro i hi
    obtain ⟨r1, r2, r3, r4⟩ := hrange i hi
    constructor
    · rw [trimSliderIncremented, hn, incrementTrim_apply, if_pos hi,
        value_setValue_in_range _ _ (hint i hi) r3 r4]
    · rw [trimSliderDecremented, hn, decrementTrim_apply, if_pos hi,
        value_setValue_in_range _ _ (hint i hi) r1 r2]
  · intro i hi _
    constructor
    · rw [trimSliderIncremented, hn, incrementTrim_apply, if_neg (by omega)]
    · rw [trimSliderDecremented, hn, decrementTrim_apply, if_neg (by omega)]

set_option maxRecDepth 8000 in
/-- C21 amended, at a concrete input: zero latency mode on, stored band count 3, the five
direction sliders at 1/2 in the range from 0 to 1. -/
theorem trim_event_on_stored_count_witness :
    sampleZeroDelayPolled.processor.zeroDelayMode = true ∧
    sampleZeroDelayPolled.nActiveBands = 3 ∧
    (∀ i : Nat, (i : Int) < 3 →
      (trimSliderIncremented sampleZeroDelayPolled EndlessSlider.new sampleSlDirMid i).value =
        (sampleSlDirMid i).value + EndlessSlider.new.step ∧
      (trimSliderDecremented sampleZeroDelayPolled EndlessSlider.new sampleSlDirMid i).value =
        (sampleSlDirMid i).value - EndlessSlider.new.step) ∧
    (∀ i : Nat, (3 : Int) ≤ (i : Int) → i < 5 →
      trimSliderIncremented sampleZeroDelayPolled EndlessSlider.new sampleSlDirMid i =
        sampleSlDirMid i ∧
      trimSliderDecremented sampleZeroDelayPolled EndlessSlider.new sampleSlDirMid i =
        sampleSlDirMid i) :=
  ⟨by decide, by decide,
    trim_event_on_stored_count sampleZeroDelayPolled EndlessSlider.new sampleSlDirMid 3
      (by decide) (by decide) (by decide) (fun _ _ => le_refl _)
      (fun _ _ => by norm_num [sampleSlDirMid, EndlessSlider.new])⟩

/-! ## Band slots of the layout -/

theorem length_getBandLimitWidthVector (n : Int) (x : Nat → Int) (W off : ℚ) :
    (getBandLimitWidthVector n x W off).length = (n - 1).toNat + 2 := by
  unfold getBandLimitWidthVector
  simp only [forLoop_snoc]
  simp

/-- The loop of `resized` over the bands, run for `k` passes. -/
theorem resized_loop_slots (active : Nat → Bool) (v : List ℚ) (W : ℚ) (k : Nat)
    (hk : k + 1 ≤ v.length) :
    ∃ slots : List (Nat × ℚ),
      forLoop k (fun i (acc : Option (List (Nat × ℚ))) =>
        if active i then
          match acc, v[i + 1]? with
          | some slots, some w => some (slots ++ [(i, w / W)])
          | _, _ => none
        else acc) (some []) = some slots ∧
      slots.map Prod.fst = (List.range k).filter fun i => active i := by
  induction k with
  | zero => exact ⟨[], rfl, rfl⟩
  | succ k ih =>
    obtain ⟨slots, hs, hf⟩ := ih (by omega)
    rw [forLoop, hs]
    by_cases ha : active k = true
    · have hlt : k + 1 < v.length := by omega
      refine ⟨slots ++ [(k, v[k + 1] / W)], ?_, ?_⟩
      · simp [ha, List.getElem?_eq_getElem hlt]
      · simp [List.range_succ, List.filter_append, hf, ha]
    · refine ⟨slots, ?_, ?_⟩
      · simp [ha]
      · simp [List.range_succ, List.filter_append, hf, ha]

/-- The slots of `resized` for every stored band count: all reads of the width vector are
in bounds, and the bands with a slot are those with an active visualizer, below the stored
band count (band 0 alone when the count is below 2). -/
theorem resizedBandSlots_bands (s : Editor) (x : Nat → Int) (deqWidth : Int) :
    ∃ slots : List (Nat × ℚ), resizedBandSlots s x deqWidth = some slots ∧
      slots.map Prod.fst =
        (List.range (if s.nActiveBands < 2 then 1 else s.nActiveBands.toNat)).filter
          fun i => (s.band i).pvisActive := by
  unfold resizedBandSlots
  simp only []
  by_cases h2 : s.nActiveBands < 2
  · rw [if_pos h2, if_pos h2]
    have hlen := length_getBandLimitWidthVector s.nActiveBands x ((deqWidth : ℚ) - 42) 29
    by_cases ha : (s.band 0).pvisActive = true
    · rw [if_pos ha]
      have h0 : 0 < (getBandLimitWidthVector s.nActiveBands x ((deqWidth : ℚ) - 42) 29).length := by
        omega
      rw [List.getElem?_eq_getElem h0]
      exact ⟨_, rfl, by simp [List.range_succ, ha]⟩
    · rw [if_neg ha]
      exact ⟨[], rfl, by simp [List.range_succ, ha]⟩
  · rw [if_neg h2, if_neg h2]
    have hlen := length_getBandLimitWidthVector s.nActiveBands x ((deqWidth : ℚ) - 42) 29
    exact resized_loop_slots (fun i => (s.band i).pvisActive) _ _ _ (by omega)

/-- C22: for every stored band count `n` in `[1,5]` and every visualizer-active mask, `resized`
creates its band slots without a read out of bounds; the bands that get a slot are the
indices `i < n` whose visualizer is active, in increasing order, so the number of slots is
the number of such indices, a band whose visualizer is inactive gets no slot, and the number
of slots is at most `n`. -/
theorem resized_slot_count (s : Editor) (x : Nat → Int) (deqWidth : Int) (n : Int)
    (h1 : 1 ≤ n) (h5 : n ≤ 5) (hn : s.nActiveBands = n) :
    ∃ slots : List (Nat × ℚ), resizedBandSlots s x deqWidth = some slots ∧
      slots.map Prod.fst = ((List.range n.toNat).filter fun i => (s.band i).pvisActive) ∧
      slots.length = (List.range n.toNat).countP (fun i => (s.band i).pvisActive) ∧
      (slots.map Prod.fst).Sorted (· < ·) ∧
      (∀ i : Nat, (s.band i).pvisActive = false → i ∉ slots.map Prod.fst) ∧
      slots.length ≤ n.toNat := by
  obtain ⟨slots, hs, hf⟩ := resizedBandSlots_bands s x deqWidth
  have hr : (if s.nActiveBands < 2 then 1 else s.nActiveBands.toNat) = n.toNat := by
    rw [hn]
    split <;> omega
  rw [hr] at hf
  have hlen : slots.length = (List.range n.toNat).countP (fun i => (s.band i).pvisActive) := by
    rw [List.countP_eq_length_filter, ← hf, List.length_map]
  refine ⟨slots, hs, hf, hlen, ?_, ?_, ?_⟩
  · rw [hf]
    exact (List.sorted_lt_range _).filter _
  · intro i hi hmem
    rw [hf, List.mem_filter] at hmem
    rw [hi] at hmem
    exact absurd hmem.2 (by simp)
  · rw [hlen]
    calc (List.range n.toNat).countP (fun i => (s.band i).pvisActive)
        ≤ (List.range n.toNat).length := List.countP_le_length _
      _ = n.toNat := List.length_range _

set_option maxRecDepth 8000 in
/-- C22 at a concrete input: three bands, the visualizer of band 1 inactive, equaliser width
942 and crossovers at 329 and 629: the slots are those of bands 0 and 2. -/
theorem resized_slot_count_witness :
    sampleMiddleInactive.nActiveBands = 3 ∧
    ((List.range 3).map fun i => (sampleMiddleInactive.band i).pvisActive) =
      [true, false, true] ∧
    ∃ slots : List (Nat × ℚ),
      resizedBandSlots sampleMiddleInactive (fun i => 329 + 300 * i) 942 = some slots ∧
      slots.map Prod.fst = ((List.range (3 : Int).toNat).filter
        fun i => (sampleMiddleInactive.band i).pvisActive) ∧
      slots.length = (List.range (3 : Int).toNat).countP
        (fun i => (sampleMiddleInactive.band i).pvisActive) ∧
      (slots.map Prod.fst).Sorted (· < ·) ∧
      (∀ i : Nat, (sampleMiddleInactive.band i).pvisActive = false →
        i ∉ slots.map Prod.fst) ∧
      slots.length ≤ (3 : Int).toNat :=
  ⟨by decide, by decide,
    resized_slot_count sampleMiddleInactive (fun i => 329 + 300 * i) 942 3 (by decide)
      (by decide) (by decide)⟩

/-! ## Preset failures -/

theorem opensError_of (m : String) (s u t : Editor)
    (hcalls : u.processor.calls = s.processor.calls)
    (he : u.alOverlayErrorVisible = true) (hm : u.alOverlayErrorMessage = m)
    (hd : u.alOverlayDisturberVisible = false) (hg : u.alOverlaySignalVisible = false)
    (hn : u.nActiveBands = s.nActiveBands)
    (ht : t = setSideAreaEnabled false (disableMainArea u)) : opensError m s t := by
  subst ht
  refine ⟨?_, ?_, ?_, ?_, ?_, ?_, sideAreaIs_setSideAreaEnabled false _⟩
  · exact (blind_disableMainArea (P := fun t => t.alOverlayErrorVisible)
      (fun _ _ _ => rfl) (fun _ _ _ => rfl) u).trans he
  · exact (blind_disableMainArea (P := fun t => t.alOverlayErrorMessage)
      (fun _ _ _ => rfl) (fun _ _ _ => rfl) u).trans hm
  · exact (blind_disableMainArea (P := fun t => t.alOverlayDisturberVisible)
      (fun _ _ _ => rfl) (fun _ _ _ => rfl) u).trans hd
  · exact (blind_disableMainArea (P := fun t => t.alOverlaySignalVisible)
      (fun _ _ _ => rfl) (fun _ _ _ => rfl) u).trans hg
  · exact (congrArg Processor.calls (blind_disableMainArea (P := fun t => t.processor)
      (fun _ _ _ => rfl) (fun _ _ _ => rfl) u)).trans hcalls
  · intro i _ hi
    have hlt : i < u.nActiveBands.toNat := by rw [hn]; omega
    have hb : (setSideAreaEnabled false (disableMainArea u)).band i =
        (disableMainArea u).band i := rfl
    rw [hb, band_disableMainArea, if_pos hlt]
    exact ⟨rfl, rfl, rfl, rfl⟩

/-- C23: when the workflow is idle and a load or a save of a preset fails with message `m`, the
error overlay becomes visible with message `m`, neither tracking overlay becomes visible, the
processor receives no call (so no `startTracking` and no `stopTracking`), and the controls of
every band below the stored band count and every side-area control are disabled. -/
theorem preset_failure_opens_error (s : Editor) (m : String) (h : s.idle) :
    opensError m s (buttonClicked Button.tbLoadFile (PresetOutcome.failed m) s) ∧
    opensError m s (buttonClicked Button.tbSaveFile (PresetOutcome.failed m) s) := by
  obtain ⟨_, hd, hg⟩ := h
  constructor
  · exact opensError_of m s
      { s with
        alOverlayErrorTitle := "preset load error!"
        alOverlayErrorMessage := m
        alOverlayErrorVisible := true } _ rfl rfl rfl hd hg rfl rfl
  · exact opensError_of m s
      { s with
        alOverlayErrorTitle := "preset save error!"
        alOverlayErrorMessage := m
        alOverlayErrorVisible := true } _ rfl rfl rfl hd hg rfl rfl

set_option maxRecDepth 8000 in
/-- C23 at a concrete input: the sample editor after a band-count poll (idle, three bands), and
the message "no such file". -/
theorem preset_failure_opens_error_witness :
    samplePolled.idle ∧ samplePolled.nActiveBands = 3 ∧
    opensError "no such file" samplePolled
      (buttonClicked Button.tbLoadFile (PresetOutcome.failed "no such file") samplePolled) ∧
    opensError "no such file" samplePolled
      (buttonClicked Button.tbSaveFile (PresetOutcome.failed "no such file") samplePolled) :=
  ⟨by decide, by decide, preset_failure_opens_error samplePolled "no such file" (by decide)⟩

set_option maxRecDepth 8000 in
/-- C24, counterexample: the sample editor after a band-count poll is idle with stored band
count 3 and the load button enabled; sync-channel button 4 is disabled there (the poll
disables the sync-channel buttons above the band count), and it is enabled after a failed
load, or a failed save, followed by the acknowledgement: the enabled state of this side-area
control is not what it was before the failure. -/
theorem acknowledge_enables_sync_button :
    samplePolled.idle ∧ samplePolled.nActiveBands = 3 ∧ samplePolled.tbLoadFileEnabled = true ∧
    samplePolled.tbSyncChannelEnabled 4 = false ∧
    (loadFailedThenAcknowledged "no such file" samplePolled).tbSyncChannelEnabled 4 = true ∧
    (saveFailedThenAcknowledged "no such file" samplePolled).tbSyncChannelEnabled 4 = true := by
  refine ⟨by decide, by decide, by decide, by decide, by decide, by decide⟩

theorem reenabled_disableOverlay (s u : Editor) (hp : u.processor = s.processor) :
    reenabled s (disableOverlay u) := by
  refine ⟨idle_disableOverlay u, mainAreaEnabled_disableOverlay u, sideAreaIs_disableOverlay u,
    ?_, ?_⟩
  · rw [nActiveBands_disableOverlay, hp]
  · intro i hi hge
    have hb := band_disableOverlay u i
    have hlt : ¬ ((i : Int) < u.processor.nBands) := by rw [hp]; omega
    rw [if_pos hi] at hb
    simp [Editor.bandDisabled, hb, bandAfterCount, hlt]

theorem enabledState_restored (s t : Editor) (hs : s.mainAreaEnabled)
    (hsd : ∀ i : Nat, i < 5 → s.processor.nBands ≤ (i : Int) → s.bandDisabled i)
    (hcount : s.processor.nBands = s.nActiveBands) (ht : reenabled s t) (i : Nat) (hi : i < 5) :
    (t.band i).enabledState = (s.band i).enabledState := by
  obtain ⟨_, htm, _, htn, htd⟩ := ht
  by_cases hlt : (i : Int) < s.processor.nBands
  · obtain ⟨a1, a2, a3, a4⟩ := hs.2.2 i hi (by rw [← hcount]; exact hlt)
    obtain ⟨b1, b2, b3, b4⟩ := htm.2.2 i hi (by rw [htn]; exact hlt)
    simp [BandControls.enabledState, a1, a2, a3, a4, b1, b2, b3, b4]
  · obtain ⟨a1, a2, a3, a4⟩ := hsd i hi (by omega)
    obtain ⟨b1, b2, b3, b4⟩ := htd i hi (by omega)
    simp [BandControls.enabledState, a1, a2, a3, a4, b1, b2, b3, b4]

/-- C24, amended: for every idle state with stored band count `n` in `[1,5]`, a failed load or
save followed by the acknowledgement returns to idle with the areas enabled again: no overlay
is visible, the equaliser is active, the zero latency button and every side-area control are
enabled, the stored band count is the one the processor reports, the controls of the bands
below it are enabled and those of the other bands disabled.  The enabled state of every
band control equals what it was before the failure when, before the failure, the processor
reported `n`, the controls of the bands below `n` were enabled and those of the other bands
disabled. -/
theorem failure_acknowledged_reenables (s : Editor) (m : String) (n : Int) (h : s.idle)
    (h1 : 1 ≤ n) (h5 : n ≤ 5) (hn : s.nActiveBands = n) :
    reenabled s (loadFailedThenAcknowledged m s) ∧
    reenabled s (saveFailedThenAcknowledged m s) ∧
    (s.processor.nBands = n → s.mainAreaEnabled →
      (∀ i : Nat, i < 5 → n ≤ (i : Int) → s.bandDisabled i) →
      ∀ i : Nat, i < 5 →
        ((loadFailedThenAcknowledged m s).band i).enabledState = (s.band i).enabledState ∧
        ((saveFailedThenAcknowledged m s).band i).enabledState = (s.band i).enabledState) := by
  have _ := h
  have _ : 1 ≤ s.nActiveBands ∧ s.nActiveBands ≤ 5 := by omega
  have hl : reenabled s (loadFailedThenAcknowledged m s) := by
    apply reenabled_disableOverlay
    exact blind_disableMainArea (P := fun t => t.processor) (fun _ _ _ => rfl)
      (fun _ _ _ => rfl) _
  have hv : reenabled s (saveFailedThenAcknowledged m s) := by
    apply reenabled_disableOverlay
    exact blind_disableMainArea (P := fun t => t.processor) (fun _ _ _ => rfl)
      (fun _ _ _ => rfl) _
  refine ⟨hl, hv, ?_⟩
  intro hp hs hsd i hi
  have hsd' : ∀ i : Nat, i < 5 → s.processor.nBands ≤ (i : Int) → s.bandDisabled i := by
    intro j hj hge
    exact hsd j hj (by omega)
  exact ⟨enabledState_restored s _ hs hsd' (by omega) hl i hi,
    enabledState_restored s _ hs hsd' (by omega) hv i hi⟩

set_option maxRecDepth 8000 in
/-- C24 amended, at a concrete input: the sample editor after a band-count poll (idle, three
bands stored and reported) and the message "no such file". -/
theorem failure_acknowledged_reenables_witness :
    samplePolled.idle ∧ samplePolled.nActiveBands = 3 ∧
    reenabled samplePolled (loadFailedThenAcknowledged "no such file" samplePolled) ∧
    reenabled samplePolled (saveFailedThenAcknowledged "no such file" samplePolled) ∧
    ∀ i : Nat, i < 5 →
      ((loadFailedThenAcknowledged "no such file" samplePolled).band i).enabledState =
        (samplePolled.band i).enabledState ∧
      ((saveFailedThenAcknowledged "no such file" samplePolled).band i).enabledState =
        (samplePolled.band i).enabledState :=
  have h := failure_acknowledged_reenables samplePolled "no such file" 3 (by decide)
    (by decide) (by decide) (by decide)
  ⟨by decide, by decide, h.1, h.2.1, h.2.2 (by decide) (by decide) (by decide)⟩

/-! ## Band invariant and overlays under polls -/

set_option maxRecDepth 8000 in
/-- C25, failing state: the editor the constructor builds on a processor that reports three
bands is reachable and has stored band count 0 (the constructor ends with
`zeroDelayModeChange`, which takes the count from the retired combo box); band 0 has an index
at or above that count and is not hidden: its controls and its visualizer are visible. -/
theorem constructed_band_not_hidden :
    Reachable sampleEditor ∧ sampleEditor.processor.nBands = 3 ∧
    sampleEditor.nActiveBands = 0 ∧ (0 : Int) ≥ sampleEditor.nActiveBands ∧
    ¬ sampleEditor.bandHidden 0 ∧ sampleEditor.bandVisible 0 := by
  refine ⟨Reachable.construct _ _ _, by decide, by decide, by decide, by decide, by decide⟩

set_option maxRecDepth 8000 in
/-- C26, failing states: while the disturber overlay is visible and the side area disabled, a
tick that finds `zeroDelayModeChanged` set (zero latency off) leaves the overlay visible and
the record-signal and load buttons enabled; and a tick that finds `didNRActiveBandsChange`
set while the disturber overlay is visible turns band 0 from disabled to enabled, the
overlay still visible. -/
theorem poll_unblocks_under_overlay :
    sampleFlagRaised.alOverlayDisturberVisible = true ∧ sampleFlagRaised.sideAreaIs false ∧
    (timerCallback sampleFlagRaised).alOverlayDisturberVisible = true ∧
    (timerCallback sampleFlagRaised).tbRecordSignalEnabled = true ∧
    (timerCallback sampleFlagRaised).tbLoadFileEnabled = true ∧
    sampleBandFlagUnderOverlay.alOverlayDisturberVisible = true ∧
    sampleBandFlagUnderOverlay.bandDisabled 0 ∧
    (timerCallback sampleBandFlagUnderOverlay).alOverlayDisturberVisible = true ∧
    (timerCallback sampleBandFlagUnderOverlay).bandEnabled 0 := by
  refine ⟨by decide, by decide, by decide, by decide, by decide, by decide, by decide,
    by decide, by decide⟩

/-! ## Zero latency mode clears solo and mute -/

/-- C27: for every prior state in which the processor reports zero latency mode active,
`zeroDelayModeChange` leaves the solo and the mute toggle of every band `1..4` off, whatever
they were before, and leaves the solo and the mute toggle of band 0 as they were. -/
theorem zeroDelay_active_clears_solo_mute (s : Editor) (h : s.processor.zeroDelayMode = true) :
    (∀ i : Nat, 1 ≤ i → i < 5 →
      ((zeroDelayModeChange s).band i).msbSoloToggleState = false ∧
      ((zeroDelayModeChange s).band i).msbMuteToggleState = false) ∧
    ((zeroDelayModeChange s).band 0).msbSoloToggleState = (s.band 0).msbSoloToggleState ∧
    ((zeroDelayModeChange s).band 0).msbMuteToggleState = (s.band 0).msbMuteToggleState := by
  refine ⟨?_, ?_, ?_⟩
  · intro i h1 h5
    have hb := band_zeroDelayModeChange s i
    have hlt : ¬ ((i : Int) < 1) := by omega
    simp [h, h5, hlt] at hb
    simp [hb, bandAfterZeroDelay]
  · have hb := band_zeroDelayModeChange s 0
    simp [h] at hb
    simp [hb, bandAfterZeroDelay]
  · have hb := band_zeroDelayModeChange s 0
    simp [h] at hb
    simp [hb, bandAfterZeroDelay]

set_option maxRecDepth 8000 in
/-- C27 at a concrete input: three bands, band 1 soloed and band 4 muted, zero latency mode
on. -/
theorem zeroDelay_active_clears_solo_mute_witness :
    (sampleSoloMute.withZeroDelayMode true).processor.zeroDelayMode = true ∧
    (sampleSoloMute.band 1).msbSoloToggleState = true ∧
    (∀ i : Nat, 1 ≤ i → i < 5 →
      ((zeroDelayModeChange (sampleSoloMute.withZeroDelayMode true)).band i).msbSoloToggleState
        = false ∧
      ((zeroDelayModeChange (sampleSoloMute.withZeroDelayMode true)).band i).msbMuteToggleState
        = false) ∧
    ((zeroDelayModeChange (sampleSoloMute.withZeroDelayMode true)).band 0).msbSoloToggleState =
      ((sampleSoloMute.withZeroDelayMode true).band 0).msbSoloToggleState ∧
    ((zeroDelayModeChange (sampleSoloMute.withZeroDelayMode true)).band 0).msbMuteToggleState =
      ((sampleSoloMute.withZeroDelayMode true).band 0).msbMuteToggleState :=
  ⟨by decide, by decide,
    zeroDelay_active_clears_solo_mute (sampleSoloMute.withZeroDelayMode true) (by decide)⟩

/-! ## Sync channel buttons after a band count change -/

theorem highlightBlind_buttonClickedMuteSolo {α : Type} {P : Editor → α}
    (hH : HighlightBlind P) (s : Editor) : P (buttonClickedMuteSolo s) = P s :=
  hH s _ _

theorem bandOnly_modBand {α : Type} {P : Editor → α} (hB : BandOnlyBlind P)
    (i : Nat) (f : BandControls → BandControls) (s : Editor) : P (s.modBand i f) = P s :=
  hB s _

theorem bandOnly_msbSoloSetToggleState {α : Type} {P : Editor → α} (hH : HighlightBlind P)
    (hB : BandOnlyBlind P) (i : Nat) (v : Bool) (s : Editor) :
    P (msbSoloSetToggleState i v s) = P s := by
  unfold msbSoloSetToggleState
  split
  · rfl
  · rw [highlightBlind_buttonClickedMuteSolo hH, bandOnly_modBand hB]

theorem bandOnly_msbMuteSetToggleState {α : Type} {P : Editor → α} (hH : HighlightBlind P)
    (hB : BandOnlyBlind P) (i : Nat) (v : Bool) (s : Editor) :
    P (msbMuteSetToggleState i v s) = P s := by
  unfold msbMuteSetToggleState
  split
  · rfl
  · rw [highlightBlind_buttonClickedMuteSolo hH, bandOnly_modBand hB]

theorem bandOnly_nActiveBandsChangedBand {α : Type} {P : Editor → α} (hH : HighlightBlind P)
    (hB : BandOnlyBlind P) (i : Nat) (s : Editor) : P (nActiveBandsChangedBand i s) = P s := by
  unfold nActiveBandsChangedBand
  split
  · exact bandOnly_modBand hB _ _ _
  · simp only [bandOnly_modBand hB, bandOnly_msbMuteSetToggleState hH hB,
      bandOnly_msbSoloSetToggleState hH hB]

theorem syncEnabled_nActiveBandsChangedBand (i : Nat) (s : Editor) :
    (nActiveBandsChangedBand i s).tbSyncChannelEnabled = s.tbSyncChannelEnabled :=
  bandOnly_nActiveBandsChangedBand (P := fun t => t.tbSyncChannelEnabled)
    (fun _ _ _ => rfl) (fun _ _ => rfl) i s

theorem nActiveBands_nActiveBandsChangedBand (i : Nat) (s : Editor) :
    (nActiveBandsChangedBand i s).nActiveBands = s.nActiveBands :=
  bandOnly_nActiveBandsChangedBand (P := fun t => t.nActiveBands)
    (fun _ _ _ => rfl) (fun _ _ => rfl) i s

theorem syncToggles_nActiveBandsChangedBody (i : Nat) (s : Editor) :
    (nActiveBandsChangedBody i s).tbSyncChannelToggleState = s.tbSyncChannelToggleState := by
  unfold nActiveBandsChangedBody nActiveBandsChangedSync
  split
  · exact bandOnly_nActiveBandsChangedBand (P := fun t => t.tbSyncChannelToggleState)
      (fun _ _ _ => rfl) (fun _ _ => rfl) i s
  · exact bandOnly_nActiveBandsChangedBand (P := fun t => t.tbSyncChannelToggleState)
      (fun _ _ _ => rfl) (fun _ _ => rfl) i s

theorem syncEnabled_nActiveBandsChangedBody (i : Nat) (s : Editor) :
    (nActiveBandsChangedBody i s).tbSyncChannelEnabled =
      upd s.tbSyncChannelEnabled i (decide ((i : Int) ≤ s.nActiveBands)) := by
  unfold nActiveBandsChangedBody nActiveBandsChangedSync
  rw [nActiveBands_nActiveBandsChangedBand]
  by_cases h : (i : Int) ≤ s.nActiveBands
  · rw [if_pos h]
    simp [h, syncEnabled_nActiveBandsChangedBand]
  · rw [if_neg h]
    simp [h, syncEnabled_nActiveBandsChangedBand]

theorem syncEnabled_forLoop_nActiveBandsChangedBody (k : Nat) (s : Editor) (j : Nat) :
    (forLoop k nActiveBandsChangedBody s).tbSyncChannelEnabled j =
      if j < k then decide ((j : Int) ≤ s.nActiveBands) else s.tbSyncChannelEnabled j := by
  induction k with
  | zero => simp [forLoop]
  | succ k ih =>
    rw [forLoop, syncEnabled_nActiveBandsChangedBody,
      nActiveBands_forLoop_nActiveBandsChangedBody]
    by_cases hj : j = k
    · subst hj; simp
    · rw [upd_of_ne _ _ hj, ih]
      have : (j < k + 1) = (j < k) := by
        apply propext; omega
      simp only [this]

theorem syncEnabled_nActiveBandsChanged (s : Editor) (j : Nat) :
    (nActiveBandsChanged s).tbSyncChannelEnabled j =
      if j < 5 then decide ((j : Int) ≤ s.processor.nBands) else s.tbSyncChannelEnabled j := by
  unfold nActiveBandsChanged
  rw [soloBlind_tbSyncChannelSetToggleOn (P := fun t => t.tbSyncChannelEnabled)
    (fun _ _ _ _ _ => rfl)]
  exact syncEnabled_forLoop_nActiveBandsChangedBody 5 _ j

theorem toggles_buttonClickedSyncChannel (k : Nat) (s : Editor) :
    (buttonClickedSyncChannel k s).tbSyncChannelToggleState = s.tbSyncChannelToggleState := by
  unfold buttonClickedSyncChannel
  simp only []
  split <;> rfl

theorem toggles_radio_loop (k m : Nat) (s : Editor) (i : Nat) :
    (forLoop m (fun j (t : Editor) =>
      if j ≠ k ∧ t.tbSyncChannelToggleState j = true then
        buttonClickedSyncChannel j
          { t with tbSyncChannelToggleState := upd t.tbSyncChannelToggleState j false }
      else t) s).tbSyncChannelToggleState i =
      if i < m ∧ i ≠ k then false else s.tbSyncChannelToggleState i := by
  induction m with
  | zero => simp [forLoop]
  | succ m ih =>
    rw [forLoop]
    split
    · next hc =>
      rw [toggles_buttonClickedSyncChannel]
      by_cases him : i = m
      · subst him
        simp [hc.1]
      · simp only [upd_of_ne _ _ him]
        rw [ih]
        have : (i < m + 1 ∧ i ≠ k) = (i < m ∧ i ≠ k) := by
          apply propext; constructor
          · rintro ⟨a, b⟩; exact ⟨by omega, b⟩
          · rintro ⟨a, b⟩; exact ⟨by omega, b⟩
        simp only [this]
    · next hc =>
      rw [ih]
      by_cases him : i = m
      · subst him
        by_cases hik : i = k
        · simp [hik]
        · have hoff : ¬ ((forLoop i (fun j (t : Editor) =>
              if j ≠ k ∧ t.tbSyncChannelToggleState j = true then
                buttonClickedSyncChannel j
                  { t with tbSyncChannelToggleState := upd t.tbSyncChannelToggleState j false }
              else t) s).tbSyncChannelToggleState i = true) := fun h => hc ⟨hik, h⟩
          rw [ih] at hoff
          simp at hoff
          simp [hik, hoff]
      · have : (i < m + 1 ∧ i ≠ k) = (i < m ∧ i ≠ k) := by
          apply propext; constructor
          · rintro ⟨a, b⟩; exact ⟨by omega, b⟩
          · rintro ⟨a, b⟩; exact ⟨by omega, b⟩
        simp only [this]

theorem toggles_tbSyncChannelSetToggleOn (k : Nat) (s : Editor) (i : Nat) :
    (tbSyncChannelSetToggleOn k s).tbSyncChannelToggleState i =
      if s.tbSyncChannelToggleState k = true then s.tbSyncChannelToggleState i
      else if i = k then true else if i < 5 then false else s.tbSyncChannelToggleState i := by
  unfold tbSyncChannelSetToggleOn
  by_cases hk : s.tbSyncChannelToggleState k = true
  · rw [if_pos hk, if_pos hk]
  · rw [if_neg hk, if_neg hk]
    simp only []
    rw [toggles_buttonClickedSyncChannel]
    by_cases hik : i = k
    · subst hik; simp
    · rw [if_neg hik]
      show upd _ k true i = _
      rw [upd_of_ne _ _ hik, toggles_radio_loop]
      by_cases h5 : i < 5
      · simp [h5, hik]
      · simp [h5]

theorem paramWrites_tbSyncChannelSetToggleOn (k : Nat) (s : Editor)
    (hk : s.tbSyncChannelToggleState k = false) :
    (tbSyncChannelSetToggleOn k s).paramWrites.getLast? =
      some (ParamId.syncChannel, (k : Int) + 1) := by
  unfold tbSyncChannelSetToggleOn
  rw [if_neg (by simp [hk])]
  simp only []
  unfold buttonClickedSyncChannel
  simp [buttonClickedMuteSolo]

/-- C28: from every state, a run of `nActiveBandsChanged` ends with sync-channel button 0
selected, whatever was selected before (when it was not selected before, the other four
buttons end unselected and the last parameter write sets the sync channel to 1), with the
sync-channel buttons of index `i` at most the stored band count enabled, and with those of
index above it (`i < 5`) disabled. -/
theorem nActiveBandsChanged_sync_channel (s : Editor) :
    (nActiveBandsChanged s).tbSyncChannelToggleState 0 = true ∧
    (s.tbSyncChannelToggleState 0 = false →
      (∀ i : Nat, 1 ≤ i → i < 5 → (nActiveBandsChanged s).tbSyncChannelToggleState i = false) ∧
      (nActiveBandsChanged s).paramWrites.getLast? = some (ParamId.syncChannel, 1)) ∧
    (∀ i : Nat, i < 5 → (i : Int) ≤ (nActiveBandsChanged s).nActiveBands →
      (nActiveBandsChanged s).tbSyncChannelEnabled i = true) ∧
    (∀ i : Nat, i < 5 → (nActiveBandsChanged s).nActiveBands < (i : Int) →
      (nActiveBandsChanged s).tbSyncChannelEnabled i = false) := by
  have htog : (forLoop 5 nActiveBandsChangedBody
      { s with nActiveBands := s.processor.nBands }).tbSyncChannelToggleState =
      s.tbSyncChannelToggleState :=
    forLoop_frame (fun t : Editor => t.tbSyncChannelToggleState) _
      syncToggles_nActiveBandsChangedBody 5 _
  have hres : ∀ i : Nat, (nActiveBandsChanged s).tbSyncChannelToggleState i =
      if s.tbSyncChannelToggleState 0 = true then s.tbSyncChannelToggleState i
      else if i = 0 then true else if i < 5 then false else s.tbSyncChannelToggleState i := by
    intro i
    unfold nActiveBandsChanged
    simp only []
    rw [toggles_tbSyncChannelSetToggleOn, htog]
  refine ⟨?_, ?_, ?_, ?_⟩
  · rw [hres]
    by_cases h0 : s.tbSyncChannelToggleState 0 = true
    · rw [if_pos h0, h0]
    · rw [if_neg h0]; rfl
  · intro h0
    constructor
    · intro i h1 h5
      rw [hres, if_neg (by simp [h0]), if_neg (by omega), if_pos h5]
    · unfold nActiveBandsChanged
      simp only []
      have := paramWrites_tbSyncChannelSetToggleOn 0
        (forLoop 5 nActiveBandsChangedBody { s with nActiveBands := s.processor.nBands })
        (by rw [htog]; exact h0)
      simpa using this
  · intro i hi hle
    rw [nActiveBands_nActiveBandsChanged] at hle
    rw [syncEnabled_nActiveBandsChanged, if_pos hi]
    simp [hle]
  · intro i hi hlt
    rw [nActiveBands_nActiveBandsChanged] at hlt
    rw [syncEnabled_nActiveBandsChanged, if_pos hi]
    have : ¬ ((i : Int) ≤ s.processor.nBands) := by omega
    simp [this]

set_option maxRecDepth 8000 in
/-- C28 at a concrete input: the widgets as the constructor sets them up, sync-channel
button 2 selected and button 0 not, the processor reporting three bands. -/
theorem nActiveBandsChanged_sync_channel_witness :
    sampleSyncThree.tbSyncChannelToggleState 2 = true ∧
    sampleSyncThree.tbSyncChannelToggleState 0 = false ∧
    (nActiveBandsChanged sampleSyncThree).nActiveBands = 3 ∧
    (nActiveBandsChanged sampleSyncThree).tbSyncChannelToggleState 0 = true ∧
    (∀ i : Nat, 1 ≤ i → i < 5 →
      (nActiveBandsChanged sampleSyncThree).tbSyncChannelToggleState i = false) ∧
    (nActiveBandsChanged sampleSyncThree).paramWrites.getLast? =
      some (ParamId.syncChannel, 1) ∧
    (∀ i : Nat, i < 5 → (i : Int) ≤ (nActiveBandsChanged sampleSyncThree).nActiveBands →
      (nActiveBandsChanged sampleSyncThree).tbSyncChannelEnabled i = true) ∧
    (∀ i : Nat, i < 5 → (nActiveBandsChanged sampleSyncThree).nActiveBands < (i : Int) →
      (nActiveBandsChanged sampleSyncThree).tbSyncChannelEnabled i = false) :=
  have h := nActiveBandsChanged_sync_channel sampleSyncThree
  ⟨by decide, by decide, by decide, h.1, (h.2.1 (by decide)).1, (h.2.1 (by decide)).2,
    h.2.2.1, h.2.2.2⟩

/-! ## Automation shortcut -/

/-- C29: for every stored band count `n` in `[1,5]`, `getControlParameterIndex` maps crossover
handle `j` (0..3) to `j` exactly when `n > j + 1`; maps the direction slider and the
direction path of band `i` to `4 + i`, its solo button to `9 + i`, its mute button to
`14 + i` and its gain slider to `19 + i` exactly when `i = 0` or `n > i`; maps the proximity
slider to 26; and returns -1 in every other case: for a handle or band control outside these
conditions, for every other component, and so for every control of a band with index at
least `n`. -/
theorem getControlParameterIndex_mapping (s : Editor) (h1 : 1 ≤ s.nActiveBands)
    (h5 : s.nActiveBands ≤ 5) :
    (∀ j : Fin 4, getControlParameterIndex s (Control.bandlimitPathComponent j) =
      if s.nActiveBands > (j : Int) + 1 then (j : Int) else -1) ∧
    (∀ i : Fin 5,
      (getControlParameterIndex s (Control.slDir i) =
        if i = 0 ∨ s.nActiveBands > (i : Int) then 4 + (i : Int) else -1) ∧
      (getControlParameterIndex s (Control.dirPathComponent i) =
        if i = 0 ∨ s.nActiveBands > (i : Int) then 4 + (i : Int) else -1) ∧
      (getControlParameterIndex s (Control.msbSolo i) =
        if i = 0 ∨ s.nActiveBands > (i : Int) then 9 + (i : Int) else -1) ∧
      (getControlParameterIndex s (Control.msbMute i) =
        if i = 0 ∨ s.nActiveBands > (i : Int) then 14 + (i : Int) else -1) ∧
      (getControlParameterIndex s (Control.slBandGain i) =
        if i = 0 ∨ s.nActiveBands > (i : Int) then 19 + (i : Int) else -1)) ∧
    getControlParameterIndex s Control.slProximity = 26 ∧
    (∀ k : Nat, getControlParameterIndex s (Control.other k) = -1) ∧
    (∀ i : Fin 5, s.nActiveBands ≤ (i : Int) →
      getControlParameterIndex s (Control.slDir i) = -1 ∧
      getControlParameterIndex s (Control.dirPathComponent i) = -1 ∧
      getControlParameterIndex s (Control.msbSolo i) = -1 ∧
      getControlParameterIndex s (Control.msbMute i) = -1 ∧
      getControlParameterIndex s (Control.slBandGain i) = -1) := by
  obtain h | h | h | h | h : s.nActiveBands = 1 ∨ s.nActiveBands = 2 ∨ s.nActiveBands = 3 ∨
      s.nActiveBands = 4 ∨ s.nActiveBands = 5 := by omega
  all_goals
    refine ⟨?_, ?_, ?_, ?_, ?_⟩
    · intro j
      fin_cases j <;> simp [getControlParameterIndex, h]
    · intro i
      fin_cases i <;> simp [getControlParameterIndex, h]
    · simp [getControlParameterIndex]
    · intro k
      simp [getControlParameterIndex]
    · intro i hi
      rw [h] at hi
      fin_cases i <;> simp at hi <;> simp [getControlParameterIndex, h]

set_option maxRecDepth 8000 in
/-- C29 at a concrete input: three bands stored; the proximity slider maps to 26 and the
five controls of band 3 map to -1. -/
theorem getControlParameterIndex_mapping_witness :
    (1 : Int) ≤ sampleThreeBands.nActiveBands ∧ sampleThreeBands.nActiveBands ≤ 5 ∧
    getControlParameterIndex sampleThreeBands (Control.msbMute 2) = 16 ∧
    getControlParameterIndex sampleThreeBands Control.slProximity = 26 ∧
    getControlParameterIndex sampleThreeBands (Control.slDir 3) = -1 ∧
    getControlParameterIndex sampleThreeBands (Control.dirPathComponent 3) = -1 ∧
    getControlParameterIndex sampleThreeBands (Control.msbSolo 3) = -1 ∧
    getControlParameterIndex sampleThreeBands (Control.msbMute 3) = -1 ∧
    getControlParameterIndex sampleThreeBands (Control.slBandGain 3) = -1 :=
  have h := getControlParameterIndex_mapping sampleThreeBands (by decide) (by decide)
  ⟨by decide, by decide, by decide, h.2.2.1, h.2.2.2.2 3 (by decide)⟩

/-! ## Reads of the width vector -/

/-- C30: for every stored band count `n`, also `n ≤ 0`, every index that `resized` reads from
the vector of `getBandLimitWidthVector` is within bounds: the vector has `max (n, 1) + 1`
entries, the branch `n < 2` reads index 0, the branch `n ≥ 2` reads only indices `i + 1`
with `0 ≤ i < n`, and so the layout is computed with no read out of bounds. -/
theorem resized_reads_in_bounds (s : Editor) (x : Nat → Int) (deqWidth : Int) :
    (getBandLimitWidthVector s.nActiveBands x ((deqWidth : ℚ) - 42) 29).length =
      (max s.nActiveBands 1).toNat + 1 ∧
    (s.nActiveBands < 2 →
      0 < (getBandLimitWidthVector s.nActiveBands x ((deqWidth : ℚ) - 42) 29).length) ∧
    (2 ≤ s.nActiveBands → ∀ i : Nat, (i : Int) < s.nActiveBands →
      i + 1 < (getBandLimitWidthVector s.nActiveBands x ((deqWidth : ℚ) - 42) 29).length) ∧
    (resizedBandSlots s x deqWidth).isSome = true := by
  have hlen := length_getBandLimitWidthVector s.nActiveBands x ((deqWidth : ℚ) - 42) 29
  refine ⟨by omega, fun _ => by omega, fun _ i hi => by omega, ?_⟩
  obtain ⟨slots, hs, _⟩ := resizedBandSlots_bands s x deqWidth
  rw [hs]
  rfl

set_option maxRecDepth 8000 in
/-- C30 at a concrete input: the editor as constructed, whose stored band count is 0; the
vector has two entries and the layout is computed. -/
theorem resized_reads_in_bounds_witness :
    sampleEditor.nActiveBands = 0 ∧
    (getBandLimitWidthVector sampleEditor.nActiveBands (fun i => 329 + 300 * i)
      (((942 : Int) : ℚ) - 42) 29).length = (max sampleEditor.nActiveBands 1).toNat + 1 ∧
    (resizedBandSlots sampleEditor (fun i => 329 + 300 * i) 942).isSome = true :=
  have h := resized_reads_in_bounds sampleEditor (fun i => 329 + 300 * i) 942
  ⟨by decide, h.1, h.2.2.2⟩

end PolarDesigner
